import Mathlib

/-!
Verification of the fprime-python-model repository: a shallow embedding of
`fpp_ast_node.py`, `fpp_ast.py`, `fpp_locations.py`, `error.py` and
`fpp_to_json_translator.py`, together with theorems settling the frozen
claims about the natural-language specification.

JSON values are modelled by `JVal`; Python runtime failures (KeyError,
TypeError, ...) and the exception classes of the repository are modelled by
`PyErr`.  The process-wide mutable state (the `Locations._map` table and the
`AstNode._next_id` counter) is modelled by `SessionState`, threaded through
an explicit state-plus-exception monad `PyM`.  Translator functions never
touch that state, which is recorded in their type: they live in the
submonad `TrM` of state-preserving computations.
-/

namespace FppModel

/-- A JSON value, as loaded by the Python function `json.load`: objects keep their key
order as a field list. -/
inductive JVal where
  | null
  | bool (b : Bool)
  | int (n : Int)
  | str (s : String)
  | arr (elems : List JVal)
  | obj (fields : List (String × JVal))

/-- Errors: Python runtime errors plus the exception classes of `error.py`
(`InternalError`, `NotSupportedInFppToJsonException`, `InvalidFppToJsonField`)
and plain `Exception(...)` raises. -/
inductive PyErr where
  | keyError (k : String)
  | indexError (msg : String)
  | typeError (msg : String)
  | attributeError (msg : String)
  | nameError (msg : String)
  | valueError (msg : String)
  | internalError (msg : String)
  | notSupportedInFppToJson (field : String)
  | invalidFppToJsonField (field : String)
  | exception (msg : String)
  | recursionError
deriving DecidableEq, Repr

/-- A `fpp_locations.Location` value: `path` is the string wrapped by
`Path(...)`; `pos` and `includingLoc` are stored as the raw JSON values the
loader read. -/
structure Location where
  path : String
  pos : JVal
  includingLoc : JVal

/-- The process-wide mutable state of the program: the `AstNode._next_id`
class counter and the `Locations._map` table (an association list keyed by
id, mirroring the Python dict). -/
structure SessionState where
  next_id : Nat
  locations : List (Int × Location)

/-- The raw state-plus-exception monad.  An uncaught Python exception does
not roll back the module-level globals, so the state survives an error. -/
def PyM (α : Type) : Type := SessionState → Except PyErr α × SessionState

/-- Run a `PyM` computation on a state. -/
def PyM.run (x : PyM α) (s : SessionState) : Except PyErr α × SessionState := x s

instance instMonadPyM : Monad PyM where
  pure a := fun s => (.ok a, s)
  bind x f := fun s =>
    match x s with
    | (.ok a, s') => f a s'
    | (.error e, s') => (.error e, s')

/-- Raise an exception in the raw monad. -/
def PyM.raise (e : PyErr) : PyM α := fun s => (.error e, s)

/-- The translator monad: computations that provably leave the session state
unchanged.  Every function of `fpp_to_json_translator.py` lives here, because
none of them writes `Locations._map` or advances `AstNode._next_id`. -/
def TrM (α : Type) : Type := { f : PyM α // ∀ s, (f s).2 = s }

/-- Run a translator computation on a state. -/
def TrM.run (x : TrM α) (s : SessionState) : Except PyErr α × SessionState := x.val s

/-- Bind for `TrM`: sequencing two state-preserving computations preserves
the state. -/
def TrM.bind (x : TrM α) (f : α → TrM β) : TrM β :=
  ⟨fun s =>
    match x.val s with
    | (.ok a, s') => (f a).val s'
    | (.error e, s') => (.error e, s'),
   by
    intro s
    have hx := x.property s
    dsimp only
    split
    next a s' heq =>
      rw [heq] at hx
      exact ((f a).property s').trans hx
    next e s' heq =>
      rw [heq] at hx
      exact hx⟩

instance instMonadTrM : Monad TrM where
  pure a := ⟨fun s => (.ok a, s), fun _ => rfl⟩
  bind := TrM.bind

/-- Raise an exception in the translator monad (state untouched). -/
def TrM.raise (e : PyErr) : TrM α := ⟨fun s => (.error e, s), fun _ => rfl⟩

/-- Lift a pure fallible computation into the translator monad. -/
def TrM.ofExcept (x : Except PyErr α) : TrM α := ⟨fun s => (x, s), fun _ => rfl⟩

/-- A key lookup in a JSON object, as an association-list lookup (Python
dict lookup; objects keep each key once). -/
def jLookup (fields : List (String × JVal)) (k : String) : Option JVal :=
  match fields with
  | [] => none
  | (k', v) :: rest => if k' = k then some v else jLookup rest k

/-- Python `d[k]` on a JSON value: `KeyError` when the key is absent,
`TypeError` when the value is not an object. -/
def jIndexKey (v : JVal) (k : String) : TrM JVal :=
  TrM.ofExcept <|
    match v with
    | .obj fields =>
      match jLookup fields k with
      | some x => .ok x
      | none => .error (.keyError k)
    | _ => .error (.typeError "value is not subscriptable by a string key")

/-- Python `d.get(k)` on a JSON object: `none` when absent or when the value
is not an object. -/
def jGet (v : JVal) (k : String) : Option JVal :=
  match v with
  | .obj fields => jLookup fields k
  | _ => none

/-- Python `k in d`: key membership for an object, element membership for an
array; `False` on the remaining shapes the translator never feeds it. -/
def jHasKey (v : JVal) (k : String) : Bool :=
  match v with
  | .obj fields => (jLookup fields k).isSome
  | .arr elems =>
    elems.any fun e =>
      match e with
      | .str s => s = k
      | _ => false
  | _ => false

/-- Python `l[i]` on a JSON array. -/
def jIndexNat (v : JVal) (i : Nat) : TrM JVal :=
  TrM.ofExcept <|
    match v with
    | .arr elems =>
      match elems.get? i with
      | some x => .ok x
      | none => .error (.indexError "list index out of range")
    | _ => .error (.typeError "value is not subscriptable by an integer index")

/-- Python `list(d.keys())[0]`. -/
def jFirstKey (v : JVal) : TrM String :=
  TrM.ofExcept <|
    match v with
    | .obj ((k, _) :: _) => .ok k
    | .obj [] => .error (.indexError "list index out of range")
    | _ => .error (.attributeError "keys")

/-- Python `d.items()` on a JSON object. -/
def jItems (v : JVal) : TrM (List (String × JVal)) :=
  TrM.ofExcept <|
    match v with
    | .obj fields => .ok fields
    | _ => .error (.attributeError "items")

/-- Python `for x in l` over a JSON array. -/
def jElems (v : JVal) : TrM (List JVal) :=
  TrM.ofExcept <|
    match v with
    | .arr elems => .ok elems
    | _ => .error (.typeError "value is not iterable")

/-- Python truthiness of a JSON value. -/
def JVal.truthy : JVal → Bool
  | .null => false
  | .bool b => b
  | .int n => n != 0
  | .str s => !s.isEmpty
  | .arr elems => !elems.isEmpty
  | .obj fields => !fields.isEmpty

/-- Truthiness of a Python optional (the result of `d.get(k)`). -/
def optTruthy : Option JVal → Bool
  | none => false
  | some v => v.truthy

/-- Python `v != "None"` for a JSON value compared against the string
literal used by the connection-graph decoder. -/
def jIsStrNoneLiteral : JVal → Bool
  | .str s => s == "None"
  | _ => false

/-- Python `str(...)` of a JSON value.  Scalars are rendered exactly; the
translated inputs never reach the container cases, which are abstracted by a
fixed marker. -/
def pyStr : JVal → String
  | .str s => s
  | .int n => toString n
  | .bool b => if b then "True" else "False"
  | .null => "None"
  | .arr _ => "<list>"
  | .obj _ => "<dict>"

/-! AST node wrapper and the value model.

The value types below follow the values the translator actually constructs
and stores at run time, which is what a dynamically typed execution carries;
where the dataclass annotations of `fpp_ast.py` disagree with the constructed
values (for example `translate_transition_expr` returning a bare
`TransitionExpr`, or `translate_qual_ident` falling through to `None`), the
constructed value wins, because that is the program's behaviour. -/

/-- The `fpp_ast_node.AstNode` frozen dataclass: a payload plus the node
identity.  Identities are stored verbatim (Python performs no coercion), so
the field holds a raw JSON value; fresh identities from the class counter
are integer values. -/
structure AstNode (α : Type) where
  data : α
  _id : JVal

/-- Python classmethod `AstNode.create_with_id`: wrap a payload with a given
identity; the class counter is not consulted. -/
def AstNode.create_with_id (data : α) (id : JVal) : AstNode α :=
  ⟨data, id⟩

/-- The result of `annotate(l1, d, l2)`: a singleton list holding the
(pre-comments, value, post-comments) triple. -/
def Annotated (α : Type) : Type := List (JVal × α × JVal)

/-- The `annotate` helper of the translator. -/
def annotate (l1 : JVal) (d : α) (l2 : JVal) : Annotated α :=
  [(l1, d, l2)]

inductive Binop where
  | add | div | mul | sub
deriving DecidableEq, Repr

inductive Unop where
  | minus
deriving DecidableEq, Repr

inductive ComponentKind where
  | active | passive | queued
deriving DecidableEq, Repr

inductive QueueFull where
  | assert_kind | block | drop | hook
deriving DecidableEq, Repr

inductive SpecCommandKind where
  | async | guarded | sync
deriving DecidableEq, Repr

inductive SpecEventSeverity where
  | activityHigh | activityLow | command | diagnostic | fatal
  | warningHigh | warningLow
deriving DecidableEq, Repr

inductive SpecTlmChannelUpdate where
  | always | onChange
deriving DecidableEq, Repr

inductive SpecialInputKind where
  | async | guarded | sync
deriving DecidableEq, Repr

inductive SpecialKind where
  | commandRecv | commandReg | commandResp | event | paramGet | paramSet
  | productGet | productRecv | productRequest | productSend | telemetry
  | textEvent | timeGet
deriving DecidableEq, Repr

inductive GeneralKind where
  | asyncInput | guardedInput | output | syncInput
deriving DecidableEq, Repr

inductive PatternKind where
  | command | event | health | param | telemetry | textEvent | time
deriving DecidableEq, Repr

inductive Visibility where
  | private_kind | public_kind
deriving DecidableEq, Repr

inductive FormalParamKind where
  | ref | value
deriving DecidableEq, Repr

inductive LimitKind where
  | red | orange | yellow
deriving DecidableEq, Repr

mutual

/-- Expression values (`Expr` subclasses of `fpp_ast.py`), as constructed by
`translate_expr`: literal payloads are stored raw. -/
inductive ExprV where
  | exprArray (elts : List (AstNode ExprV))
  | exprBinop (e1 : AstNode ExprV) (op : Binop) (e2 : AstNode ExprV)
  | exprDot (e : AstNode ExprV) (id : AstNode String)
  | exprIdent (value : JVal)
  | exprLiteralBool (value : JVal)
  | exprLiteralInt (value : JVal)
  | exprLiteralFloat (value : JVal)
  | exprLiteralString (value : JVal)
  | exprStruct (members : List (AstNode StructMemberV))
  | exprUnop (op : Unop) (e : AstNode ExprV)

/-- A `StructMember` value inside `ExprStruct`. -/
inductive StructMemberV where
  | mk (name : JVal) (value : AstNode ExprV)

end

/-- `QualIdent` values as constructed by `translate_qual_ident`: the
qualifier slot holds the recursive translation result, which is an optional
node because the translator can fall through to `None`. -/
inductive QualIdentV where
  | unqualified (name : JVal)
  | qualified (qualifier : Option (AstNode QualIdentV)) (name : AstNode String)

/-- `TypeName` values as constructed by `translate_type_name`. -/
inductive TypeNameV where
  | float (name : String)
  | int (name : String)
  | qualIdent (name : Option (AstNode QualIdentV))
  | bool
  | string (size : Option (AstNode ExprV))

/-- A bare `TransitionExpr`, exactly what `translate_transition_expr`
returns (it never wraps its result in an `AstNode`). -/
structure TransitionExprV where
  actions : List (AstNode String)
  target : Option (AstNode QualIdentV)

/-- `TransitionOrDo` values. -/
inductive TransitionOrDoV where
  | transition (t : AstNode TransitionExprV)
  | doActions (actions : List (AstNode String))

/-- A `FormalParam` value; the name is stored raw. -/
structure FormalParamV where
  kind : FormalParamKind
  name : JVal
  typeName : AstNode TypeNameV

/-- `DefAbsType`. -/
structure DefAbsTypeV where
  name : JVal

/-- `DefAliasType`. -/
structure DefAliasTypeV where
  name : JVal
  type_name : AstNode TypeNameV

/-- `DefArray`. -/
structure DefArrayV where
  name : JVal
  size : AstNode ExprV
  elt_type : AstNode TypeNameV
  dflt : Option (AstNode ExprV)
  format : Option (AstNode JVal)

/-- `DefConstant`. -/
structure DefConstantV where
  name : JVal
  value : AstNode ExprV

/-- `DefEnumConstant`. -/
structure DefEnumConstantV where
  name : JVal
  value : Option (AstNode ExprV)

/-- `DefEnum`; `constants` is the list built by `translate_def_enum`. -/
structure DefEnumV where
  name : JVal
  type_name : Option (AstNode TypeNameV)
  constants : List (Annotated (AstNode DefEnumConstantV))

/-- `StructTypeMember`. -/
structure StructTypeMemberV where
  name : JVal
  size : Option (AstNode ExprV)
  type_name : AstNode TypeNameV
  format : Option (AstNode JVal)

/-- `DefStruct`. -/
structure DefStructV where
  name : JVal
  members : List (Annotated (AstNode StructTypeMemberV))
  dflt : Option (AstNode ExprV)

/-- `SpecCommand`; the queue-full translator returns a bare enum value, so
the optional holds a bare `QueueFull`. -/
structure SpecCommandV where
  kind : SpecCommandKind
  name : JVal
  params : List (Annotated (AstNode FormalParamV))
  opcode : Option (AstNode ExprV)
  priority : Option (AstNode ExprV)
  queueFull : Option QueueFull

/-- `SpecTlmChannel`. -/
structure SpecTlmChannelV where
  name : JVal
  type_name : AstNode TypeNameV
  id : Option (AstNode ExprV)
  update : Option SpecTlmChannelUpdate
  format : Option (AstNode JVal)
  low : List (AstNode LimitKind × AstNode ExprV)
  high : List (AstNode LimitKind × AstNode ExprV)

/-- `SpecEvent`. -/
structure SpecEventV where
  name : JVal
  params : List (Annotated (AstNode FormalParamV))
  severity : SpecEventSeverity

/-- `SpecRecord`; `isArray` is stored raw. -/
structure SpecRecordV where
  name : JVal
  record_type : AstNode TypeNameV
  is_array : JVal
  id : Option (AstNode ExprV)

/-- `SpecContainer`. -/
structure SpecContainerV where
  name : JVal
  id : Option (AstNode ExprV)
  default_priority : Option (AstNode ExprV)

/-- `SpecParam`; `isExternal` is stored raw. -/
structure SpecParamV where
  name : JVal
  type_name : AstNode TypeNameV
  dflt : Option (AstNode ExprV)
  id : Option (AstNode ExprV)
  set_opcode : Option (AstNode ExprV)
  save_opcode : Option (AstNode ExprV)
  is_external : JVal

/-- `SpecPortMatching`. -/
structure SpecPortMatchingV where
  port1 : AstNode String
  port2 : AstNode String

/-- `SpecInternalPort`. -/
structure SpecInternalPortV where
  name : JVal
  params : List (Annotated (AstNode FormalParamV))
  priority : Option (AstNode ExprV)
  queue_full : Option QueueFull

/-- `SpecPortInstance` values (`Special` / `General`); the `port` slot of a
general instance is the optional translation of an optional field, hence the
double `Option`. -/
inductive SpecPortInstanceV where
  | special (input_kind : Option SpecialInputKind) (kind : SpecialKind)
      (name : JVal) (priority : Option (AstNode ExprV))
      (queue_full : Option QueueFull)
  | general (kind : GeneralKind) (name : JVal)
      (size : Option (AstNode ExprV))
      (port : Option (Option (AstNode QualIdentV)))
      (priority : Option (AstNode ExprV)) (queue_full : Option QueueFull)

/-- `SpecImport`. -/
structure SpecImportV where
  sym : Option (AstNode QualIdentV)

/-- `SpecInit`; `code` is stored raw. -/
structure SpecInitV where
  phase : AstNode ExprV
  code : JVal

/-- `DefComponentInstance`. -/
structure DefComponentInstanceV where
  name : JVal
  component : Option (AstNode QualIdentV)
  base_id : AstNode ExprV
  impl_type : Option (AstNode JVal)
  file : Option (AstNode JVal)
  queue_size : Option (AstNode ExprV)
  stack_size : Option (AstNode ExprV)
  priority : Option (AstNode ExprV)
  cpu : Option (AstNode ExprV)
  init_specs : List (Annotated (AstNode SpecInitV))

/-- The `ComponentMember` wrapper classes that `fpp_ast.py` actually
defines: only the five `Def*` wrappers exist.  The eleven further wrapper
names the translator mentions (`ComponentMemberSpecCommand`,
`ComponentMemberDefStruct`, `ComponentMemberSpecTlmChannel`, and so on) are
defined nowhere, so the corresponding dispatch arms raise `NameError` on
entry and never construct a value (see `translate_component_members`). -/
inductive ComponentMemberNodeV where
  | defAbsType (node : AstNode DefAbsTypeV)
  | defAliasType (node : AstNode DefAliasTypeV)
  | defArray (node : AstNode DefArrayV)
  | defConstant (node : AstNode DefConstantV)
  | defEnum (node : AstNode DefEnumV)

/-- `DefComponent`. -/
structure DefComponentV where
  kind : ComponentKind
  name : JVal
  members : List (Annotated ComponentMemberNodeV)

/-- `DefChoice`; the two transitions are bare `TransitionExpr` values
because `translate_transition_expr` returns bare values. -/
structure DefChoiceV where
  name : JVal
  guard : AstNode String
  if_transition : TransitionExprV
  else_transition : TransitionExprV

/-- `SpecStateEntry`. -/
structure SpecStateEntryV where
  actions : List (AstNode String)

/-- `SpecStateExit`. -/
structure SpecStateExitV where
  actions : List (AstNode String)

/-- `SpecInitialTransition`, holding the bare transition expression it is
constructed with. -/
structure SpecInitialTransitionV where
  transition : TransitionExprV

/-- `SpecStateTransition`. -/
structure SpecStateTransitionV where
  signal : AstNode String
  guard : Option (AstNode String)
  transition_or_do : TransitionOrDoV

mutual

/-- The closed `StateMember` variant family. -/
inductive StateMemberNodeV where
  | defChoice (node : AstNode DefChoiceV)
  | defState (node : AstNode DefStateV)
  | specStateEntry (node : AstNode SpecStateEntryV)
  | specStateExit (node : AstNode SpecStateExitV)
  | specInitialTransition (node : AstNode SpecInitialTransitionV)
  | specStateTransition (node : AstNode SpecStateTransitionV)

/-- `DefState`. -/
inductive DefStateV where
  | mk (name : JVal) (members : List (List (JVal × StateMemberNodeV × JVal)))

end

/-- `DefAction`. -/
structure DefActionV where
  name : JVal
  type_name : Option (AstNode TypeNameV)

/-- `DefGuard`. -/
structure DefGuardV where
  name : JVal
  type_name : Option (AstNode TypeNameV)

/-- `DefSignal`. -/
structure DefSignalV where
  name : JVal
  type_name : Option (AstNode TypeNameV)

/-- The closed `StateMachineMember` variant family. -/
inductive StateMachineMemberNodeV where
  | defAction (node : AstNode DefActionV)
  | defChoice (node : AstNode DefChoiceV)
  | defGuard (node : AstNode DefGuardV)
  | defSignal (node : AstNode DefSignalV)
  | defState (node : AstNode DefStateV)
  | specInitialTransition (node : AstNode SpecInitialTransitionV)

/-- The closed `InterfaceMember` variant family. -/
inductive InterfaceMemberNodeV where
  | specPortInstance (node : AstNode SpecPortInstanceV)
  | specImportInterface (node : AstNode SpecImportV)

/-- `TlmChannelIdentifier`. -/
structure TlmChannelIdentifierV where
  component_instance : Option (AstNode QualIdentV)
  channel_name : AstNode String

/-- The `TlmPacketMember` family; the channel-identifier case carries a
doubly wrapped node because `translate_tlm_packet_set_members` wraps the
already-wrapped result of `translate_tlm_channel_identifier` again. -/
inductive TlmPacketMemberV where
  | tlmChannelIdentifier (node : AstNode (AstNode TlmChannelIdentifierV))

/-- `SpecTlmPacket`; `group` is stored raw (never translated). -/
structure SpecTlmPacketV where
  name : JVal
  id : Option (AstNode ExprV)
  group : JVal
  members : List TlmPacketMemberV

/-- The `TlmPacketSetMember` family. -/
inductive TlmPacketSetMemberNodeV where
  | specTlmPacket (node : AstNode SpecTlmPacketV)

/-- `SpecTlmPacketSet`; the members slot is optional because
`translate_tlm_packet_set_members` has no return statement and therefore
produces `None`. -/
structure SpecTlmPacketSetV where
  name : JVal
  members : Option (List (Annotated TlmPacketSetMemberNodeV))
  omitted : List (AstNode TlmChannelIdentifierV)

/-- A bare `PortInstanceIdentifier`, exactly what
`translate_port_instance_identifier` returns (it discards the node id). -/
structure PortInstanceIdentifierV where
  component_instance : Option (AstNode QualIdentV)
  port_name : AstNode String

/-- A `Connection`; `isUnmatched` is stored raw. -/
structure ConnectionV where
  is_unmatched : JVal
  fromPort : PortInstanceIdentifierV
  fromIndex : Option (AstNode ExprV)
  toPort : PortInstanceIdentifierV
  toIndex : Option (AstNode ExprV)

/-- `SpecConnectionGraph` values (`Direct` / `Pattern`). -/
inductive SpecConnectionGraphV where
  | direct (name : JVal) (connections : List ConnectionV)
  | pattern (kind : PatternKind) (source : Option (AstNode QualIdentV))
      (targets : List (Option (AstNode QualIdentV)))

/-- `SpecCompInstance`. -/
structure SpecCompInstanceV where
  visibility : Visibility
  inst : Option (AstNode QualIdentV)

/-- The closed `TopologyMember` variant family. -/
inductive TopologyMemberNodeV where
  | specCompInstance (node : AstNode SpecCompInstanceV)
  | specConnectionGraph (node : AstNode SpecConnectionGraphV)
  | specTlmPacketSet (node : AstNode SpecTlmPacketSetV)
  | specTopImport (node : AstNode SpecImportV)

/-- `DefInterface`. -/
structure DefInterfaceV where
  name : JVal
  members : List (Annotated InterfaceMemberNodeV)

/-- `DefPort`. -/
structure DefPortV where
  name : JVal
  params : List (Annotated (AstNode FormalParamV))
  return_type : Option (AstNode TypeNameV)

/-- `DefStateMachine`. -/
structure DefStateMachineV where
  name : JVal
  members : List (Annotated StateMachineMemberNodeV)

/-- `DefTopology`; `translate_topology_members` appends the member nodes
without annotation. -/
structure DefTopologyV where
  name : JVal
  members : List TopologyMemberNodeV

mutual

/-- The closed `ModuleMember` variant family. -/
inductive ModuleMemberNodeV where
  | defAbsType (node : AstNode DefAbsTypeV)
  | defAliasType (node : AstNode DefAliasTypeV)
  | defArray (node : AstNode DefArrayV)
  | defComponent (node : AstNode DefComponentV)
  | defComponentInstance (node : AstNode DefComponentInstanceV)
  | defConstant (node : AstNode DefConstantV)
  | defEnum (node : AstNode DefEnumV)
  | defInterface (node : AstNode DefInterfaceV)
  | defModule (node : AstNode DefModuleV)
  | defPort (node : AstNode DefPortV)
  | defStateMachine (node : AstNode DefStateMachineV)
  | defStruct (node : AstNode DefStructV)
  | defTopology (node : AstNode DefTopologyV)

/-- `DefModule`. -/
inductive DefModuleV where
  | mk (name : JVal) (members : List (List (JVal × ModuleMemberNodeV × JVal)))

end

/-! Embedding of `fpp_ast_node.py` (identity modes) and `fpp_locations.py`
(the registry), in the raw state monad. -/

/-- Python classmethod `AstNode.get_id`: read the class counter and advance
it. -/
def AstNode.get_id : PyM Nat :=
  fun s => (.ok s.next_id, { s with next_id := s.next_id + 1 })

/-- Python classmethod `AstNode.create`: wrap a payload with a freshly
allocated identity from the class counter. -/
def AstNode.create (data : α) : PyM (AstNode α) := do
  let id0 ← AstNode.get_id
  pure ⟨data, .int (Int.ofNat id0)⟩

/-- Python dict assignment `Locations._map[id] = loc`: overwrite in place if
the key exists, otherwise append. -/
def listPut : List (Int × Location) → Int → Location → List (Int × Location)
  | [], id, loc => [(id, loc)]
  | (k, v) :: rest, id, loc =>
    if k = id then (k, loc) :: rest else (k, v) :: listPut rest id loc

/-- Association-list lookup keyed by integer id. -/
def listFind : List (Int × Location) → Int → Option Location
  | [], _ => none
  | (k, v) :: rest, id => if k = id then some v else listFind rest id

/-- Lookup of a raw node identity in the registry: only integer identities
can hit an entry loaded from the location map. -/
def locFind (m : List (Int × Location)) : JVal → Option Location
  | .int n => listFind m n
  | _ => none

/-- `Locations.put`. -/
def Locations.put (id : Int) (loc : Location) : PyM Unit :=
  fun s => (.ok (), { s with locations := listPut s.locations id loc })

/-- `Locations.get`: raises `InternalError` when the id has no entry. -/
def Locations.get (id : JVal) : PyM Location :=
  fun s =>
    match locFind s.locations id with
    | some loc => (.ok loc, s)
    | none => (.error (.internalError "unknown location for AST node"), s)

/-- `Locations.get_opt`. -/
def Locations.get_opt (id : JVal) : PyM (Option Location) :=
  fun s => (.ok (locFind s.locations id), s)

/-- `Locations.get_map`: a copy of the map. -/
def Locations.get_map : PyM (List (Int × Location)) :=
  fun s => (.ok s.locations, s)

/-! Embedding of the qualified-identifier builder of `fpp_ast.py`.  The
node-list elements carry raw identifier payloads. -/

/-- Python `l.reverse()`: the list is reversed in place and the call returns
`None`; the source binds that `None`.  (The in-place mutation of the
list of the caller is never observable, because every call of `split` raises
before the list is read again.) -/
def pyListReverseInPlace (_l : List α) : Option (List α) := none

/-- `fpp_ast.split`: binds `rev = node_list.reverse()`, which is `None`, so
the falsy test `if not rev` always fires and the function raises
`InternalError` for every input, empty or not.  The `else` branch, kept for
fidelity, would itself hand back `rev[1:].reverse()` — again `None`. -/
def split (node_list : List (AstNode JVal)) :
    Except PyErr (Option (List (AstNode JVal)) × AstNode JVal) :=
  match pyListReverseInPlace node_list with
  | none => .error (.internalError "node list should not be empty")
  | some [] => .error (.internalError "node list should not be empty")
  | some (x :: rest) => .ok (pyListReverseInPlace rest, x)

/-- Truthiness of the qualifier part handed back by `split` (a Python value
that is either `None` or a list). -/
def optListTruthy : Option (List α) → Bool
  | none => false
  | some l => !l.isEmpty

/-- `fpp_ast.name`: evaluates `split(node_list)[1]` but has no `return`
statement, so on the (unreachable) success path it returns `None`. -/
def name (node_list : List (AstNode JVal)) :
    Except PyErr (Option (AstNode JVal)) :=
  match split node_list with
  | .error e => .error e
  | .ok _ => .ok none

/-- `fpp_ast.qualifier`: evaluates `split(node_list)[0]` but has no
`return` statement, so on the (unreachable) success path it returns
`None`. -/
def qualifier (node_list : List (AstNode JVal)) :
    Except PyErr (Option (List (AstNode JVal))) :=
  match split node_list with
  | .error e => .error e
  | .ok _ => .ok none

/-- `fpp_ast.qual_ident_from_node_list`, with fuel for the (unreachable)
recursion.  The first statement calls `split`, which raises `InternalError`
for every input, so the whole function raises for every input.  The branches
are embedded anyway: the single-token branch would return
`Unqualified(last.data)`; the recursive branch would fail at
`name(prefix)._id` (`name` returns `None`) and at the two-argument call of
`AstNode.create`, and in any case has no `return` statement, so the
fall-through value of the function is `None`. -/
def qual_ident_from_node_list :
    Nat → List (AstNode JVal) → Except PyErr (Option QualIdentV)
  | 0, _ => .error .recursionError
  | fuel + 1, node_list =>
    match split node_list with
    | .error e => .error e
    | .ok (pre, last) =>
      if optListTruthy pre = false then
        .ok (some (.unqualified last.data))
      else
        match pre with
        | none => .ok none
        | some xs =>
          match qual_ident_from_node_list fuel xs with
          | .error e => .error e
          | .ok _ =>
            match name xs with
            | .error e => .error e
            | .ok none =>
              .error (.attributeError "NoneType object has no attribute id")
            | .ok (some _) =>
              .error (.typeError "create takes 2 positional arguments but 3 were given")

/-- `Qualified.to_ident_list`: the source reads
`self.qualifier.data.to_ident_list + [self.name.data]` without calling the
method, so with a node in the qualifier slot Python adds a bound method to
a list and raises `TypeError` before any recursion; with `None` in the
qualifier slot the attribute chain fails first with `AttributeError`; the
`Unqualified` case returns the singleton list. -/
def QualIdentV.to_ident_list : QualIdentV → Except PyErr (List JVal)
  | .unqualified nm => .ok [nm]
  | .qualified none _ =>
    .error (.attributeError "NoneType object has no attribute data")
  | .qualified (some _) _ =>
    .error (.typeError "unsupported operand types for + (method and list)")

/-- `fpp_ast.node_from_node_list`, in the raw state monad because it calls
`AstNode.create` and `Locations.put`; its first statement always raises. -/
def node_from_node_list (fuel : Nat) (node_list : List (AstNode JVal)) :
    PyM (AstNode (Option QualIdentV)) := do
  let qual_id ←
    match qual_ident_from_node_list fuel node_list with
    | .error e => PyM.raise e
    | .ok v => pure v
  let node ← AstNode.create qual_id
  let first ←
    match node_list.get? 0 with
    | some x => pure x
    | none => PyM.raise (.indexError "list index out of range")
  let loc ← Locations.get first._id
  let nodeIdInt ←
    match node._id with
    | .int n => pure n
    | _ => PyM.raise (.typeError "unhashable id")
  Locations.put nodeIdInt loc
  pure node

/-- C1: for the example sequence [a, b, c] used by the spec, building a qualified
identifier does not reproduce the claimed round trip: the builder raises
`InternalError` on this non-empty input (because `split` binds the `None`
returned by the in-place `list.reverse()`), and `to_ident_list` itself
raises `TypeError` on any `Qualified` value (the method is referenced
without being called), so the claimed flattening never happens. -/
theorem c1_round_trip_fails_on_abc :
    qual_ident_from_node_list 10
        [⟨.str "a", .int 0⟩, ⟨.str "b", .int 1⟩, ⟨.str "c", .int 2⟩]
      = .error (.internalError "node list should not be empty")
    ∧ QualIdentV.to_ident_list
        (.qualified
          (some ⟨.qualified (some ⟨.unqualified (.str "a"), .int 0⟩)
            ⟨"b", .int 1⟩, .int 1⟩)
          ⟨"c", .int 2⟩)
      = .error (.typeError "unsupported operand types for + (method and list)") :=
  ⟨rfl, rfl⟩

/-- C6: `qual_ident_from_node_list` does raise `InternalError` on the empty
list, but contrary to the claim it raises the very same `InternalError` on
every non-empty list as well, instead of returning `Unqualified(last)` for a
single token: `split` always sees the `None` returned by the in-place
`list.reverse()` and takes the empty-list error branch. -/
theorem c6_qual_ident_raises_even_when_nonempty :
    qual_ident_from_node_list 10 ([] : List (AstNode JVal))
      = .error (.internalError "node list should not be empty")
    ∧ qual_ident_from_node_list 10 [⟨.str "x", .int 7⟩]
      = .error (.internalError "node list should not be empty") :=
  ⟨rfl, rfl⟩

/-! Embedding of `fpp_to_json_translator.py`.  Every function lives in the
state-preserving translator monad `TrM`; the self-recursive decoders take a
fuel argument modelling the unbounded Python recursion (exhausted fuel raises
`recursionError`, the analogue of blowing the interpreter stack). -/

/-- `read_ast_node`: return the `(data, id)` pair of a tagged
`{ "AstNode": { "id": ..., "data": ... } }` object. -/
def read_ast_node (a_node : JVal) : TrM (JVal × JVal) := do
  let n1 ← jIndexKey a_node "AstNode"
  let d ← jIndexKey n1 "data"
  let n2 ← jIndexKey a_node "AstNode"
  let i ← jIndexKey n2 "id"
  pure (d, i)

/-- `translate_string`: carry the raw data over under the original id. -/
def translate_string (d : JVal) : TrM (AstNode JVal) := do
  let (data, id) ← read_ast_node d
  pure (AstNode.create_with_id data id)

/-- `translate_ident`: `Ident(data)` is `str(data)`. -/
def translate_ident (d : JVal) : TrM (AstNode String) := do
  let (data, id) ← read_ast_node d
  pure (AstNode.create_with_id (pyStr data) id)

/-- `translate_qual_ident`: dispatch on the truthiness of
`data.get("Unqualified")` / `data.get("Qualified")`; the trailing
`# TODO: raise error` comment in the source is an implicit `return None`,
so an unrecognized variant falls through to `none` without any error. -/
def translate_qual_ident : Nat → JVal → TrM (Option (AstNode QualIdentV))
  | 0, _ => TrM.raise .recursionError
  | fuel + 1, d => do
    let (data, id) ← read_ast_node d
    if optTruthy (jGet data "Unqualified") then do
      let u ← jIndexKey data "Unqualified"
      let nm ← jIndexKey u "name"
      pure (some (AstNode.create_with_id (.unqualified nm) id))
    else if optTruthy (jGet data "Qualified") then do
      let qualified ← jIndexKey data "Qualified"
      let qualifier_dict ← jIndexKey qualified "qualifier"
      let q ← translate_qual_ident fuel qualifier_dict
      let nmDict ← jIndexKey qualified "name"
      let nmNode ← translate_ident nmDict
      pure (some (AstNode.create_with_id (.qualified q nmNode) id))
    else
      pure none

/-- `translate_type_name`; a string type name is rebuilt as
`TypeNameString(None)`, dropping any encoded size. -/
def translate_type_name (fuel : Nat) (tn : JVal) : TrM (AstNode TypeNameV) := do
  let (data, id) ← read_ast_node tn
  if jHasKey data "TypeNameFloat" then do
    let t ← jIndexKey data "TypeNameFloat"
    let nmDict ← jIndexKey t "name"
    let nm ← jFirstKey nmDict
    pure (AstNode.create_with_id (.float nm) id)
  else if jHasKey data "TypeNameInt" then do
    let t ← jIndexKey data "TypeNameInt"
    let nmDict ← jIndexKey t "name"
    let nm ← jFirstKey nmDict
    pure (AstNode.create_with_id (.int nm) id)
  else if jHasKey data "TypeNameQualIdent" then do
    let t ← jIndexKey data "TypeNameQualIdent"
    let nmDict ← jIndexKey t "name"
    let q ← translate_qual_ident fuel nmDict
    pure (AstNode.create_with_id (.qualIdent q) id)
  else if jHasKey data "TypeNameBool" then
    pure (AstNode.create_with_id .bool id)
  else if jHasKey data "TypeNameString" then
    pure (AstNode.create_with_id (.string none) id)
  else
    TrM.raise (.exception "Invalid type name dictionary")

/-- `translate_binop`. -/
def translate_binop (d : JVal) : TrM Binop :=
  if jHasKey d "Add" then pure .add
  else if jHasKey d "Sub" then pure .sub
  else if jHasKey d "Mul" then pure .mul
  else if jHasKey d "Div" then pure .div
  else TrM.raise (.exception "Invalid Binop JSON")

/-- `translate_optional`: presence of the `Some` key selects the wrapped
value, anything else decodes to `None`. -/
def translate_optional (d : JVal) (func : JVal → TrM α) : TrM (Option α) :=
  if jHasKey d "Some" then do
    let v ← jIndexKey d "Some"
    let r ← func v
    pure (some r)
  else
    pure none

/-- `translate_queue_full`: total, defaulting to `HOOK`. -/
def translate_queue_full (d : JVal) : QueueFull :=
  if jHasKey d "Assert" then .assert_kind
  else if jHasKey d "Block" then .block
  else if jHasKey d "Drop" then .drop
  else .hook

/-- `translate_spec_command_kind`: total, defaulting to `GUARDED`. -/
def translate_spec_command_kind (d : JVal) : SpecCommandKind :=
  if jHasKey d "Async" then .async
  else if jHasKey d "Sync" then .sync
  else .guarded

/-- `translate_severity`: total, defaulting to `WARNING_LOW`. -/
def translate_severity (d : JVal) : SpecEventSeverity :=
  if jHasKey d "ActivityHigh" then .activityHigh
  else if jHasKey d "ActivityLow" then .activityLow
  else if jHasKey d "Command" then .command
  else if jHasKey d "Diagnostic" then .diagnostic
  else if jHasKey d "Fatal" then .fatal
  else if jHasKey d "WarningHigh" then .warningHigh
  else .warningLow

/-- `translate_spec_tlm_channel_update`: raises
`InvalidFppToJsonField("")` when neither key is present. -/
def translate_spec_tlm_channel_update (d : JVal) : TrM SpecTlmChannelUpdate :=
  if jHasKey d "Always" then pure .always
  else if jHasKey d "OnChange" then pure .onChange
  else TrM.raise (.invalidFppToJsonField "")

/-- `translate_expr`. -/
def translate_expr : Nat → JVal → TrM (AstNode ExprV)
  | 0, _ => TrM.raise .recursionError
  | fuel + 1, expr_dict => do
    let (data, id) ← read_ast_node expr_dict
    if jHasKey data "ExprArray" then do
      let a ← jIndexKey data "ExprArray"
      let eltsDict ← jIndexKey a "elts"
      let elems ← jElems eltsDict
      let elts ← elems.mapM (translate_expr fuel)
      pure (AstNode.create_with_id (.exprArray elts) id)
    else if jHasKey data "ExprBinop" then do
      let b ← jIndexKey data "ExprBinop"
      let e1d ← jIndexKey b "e1"
      let e1 ← translate_expr fuel e1d
      let opd ← jIndexKey b "op"
      let op ← translate_binop opd
      let e2d ← jIndexKey b "e2"
      let e2 ← translate_expr fuel e2d
      pure (AstNode.create_with_id (.exprBinop e1 op e2) id)
    else if jHasKey data "ExprDot" then do
      let dd ← jIndexKey data "ExprDot"
      let ed ← jIndexKey dd "e"
      let e ← translate_expr fuel ed
      let idd ← jIndexKey dd "id"
      let idn ← translate_ident idd
      pure (AstNode.create_with_id (.exprDot e idn) id)
    else if jHasKey data "ExprIdent" then do
      let i ← jIndexKey data "ExprIdent"
      let v ← jIndexKey i "value"
      pure (AstNode.create_with_id (.exprIdent v) id)
    else if jHasKey data "ExprLiteralBool" then do
      let i ← jIndexKey data "ExprLiteralBool"
      let v ← jIndexKey i "value"
      pure (AstNode.create_with_id (.exprLiteralBool v) id)
    else if jHasKey data "ExprLiteralInt" then do
      let i ← jIndexKey data "ExprLiteralInt"
      let v ← jIndexKey i "value"
      pure (AstNode.create_with_id (.exprLiteralInt v) id)
    else if jHasKey data "ExprLiteralFloat" then do
      let i ← jIndexKey data "ExprLiteralFloat"
      let v ← jIndexKey i "value"
      pure (AstNode.create_with_id (.exprLiteralFloat v) id)
    else if jHasKey data "ExprLiteralString" then do
      let i ← jIndexKey data "ExprLiteralString"
      let v ← jIndexKey i "value"
      pure (AstNode.create_with_id (.exprLiteralString v) id)
    else if jHasKey data "ExprParen" then
      TrM.raise (.exception "Translation for ExprParen not implemented.")
    else if jHasKey data "ExprStruct" then do
      let st ← jIndexKey data "ExprStruct"
      let membersDict ← jIndexKey st "members"
      let elems ← jElems membersDict
      let members ← elems.mapM fun m => do
        let an ← jIndexKey m "AstNode"
        let md ← jIndexKey an "data"
        let nm ← jIndexKey md "name"
        let vd ← jIndexKey md "value"
        let ve ← translate_expr fuel vd
        let mid ← jIndexKey an "id"
        pure (AstNode.create_with_id (StructMemberV.mk nm ve) mid)
      pure (AstNode.create_with_id (.exprStruct members) id)
    else if jHasKey data "ExprUnop" then do
      let u ← jIndexKey data "ExprUnop"
      let ed ← jIndexKey u "e"
      let e ← translate_expr fuel ed
      pure (AstNode.create_with_id (.exprUnop .minus e) id)
    else
      TrM.raise (.exception "Invalid expression dictionary")

/-- `translate_actions`. -/
def translate_actions (l : JVal) : TrM (List (AstNode String)) := do
  let elems ← jElems l
  elems.mapM translate_ident

/-- `translate_transition_expr`: reads the `(data, id)` pair but discards
the id and returns a bare `TransitionExpr`, never an `AstNode`. -/
def translate_transition_expr (fuel : Nat) (te : JVal) : TrM TransitionExprV := do
  let (data, _) ← read_ast_node te
  let actionsDict ← jIndexKey data "actions"
  let actions ← translate_actions actionsDict
  let targetDict ← jIndexKey data "target"
  let target ← translate_qual_ident fuel targetDict
  pure ⟨actions, target⟩

/-- `translate_transition_or_do`. -/
def translate_transition_or_do (fuel : Nat) (t : JVal) : TrM TransitionOrDoV :=
  if jHasKey t "Transition" then do
    let tr ← jIndexKey t "Transition"
    let trd ← jIndexKey tr "transition"
    let te ← translate_transition_expr fuel trd
    let an ← jIndexKey trd "AstNode"
    let id ← jIndexKey an "id"
    pure (.transition (AstNode.create_with_id te id))
  else if jHasKey t "Do" then do
    let dd ← jIndexKey t "Do"
    let actionsDict ← jIndexKey dd "actions"
    let actions ← translate_actions actionsDict
    pure (.doActions actions)
  else
    TrM.raise (.exception "Invalid Transition or Do JSON")

/-- `translate_limit_kind`: unwraps the tagged node and defaults to `RED`
when neither `Yellow` nor `Orange` is present. -/
def translate_limit_kind (d : JVal) : TrM (AstNode LimitKind) := do
  let (data, id) ← read_ast_node d
  let limit_kind : LimitKind :=
    if jHasKey data "Yellow" then .yellow
    else if jHasKey data "Orange" then .orange
    else .red
  pure (AstNode.create_with_id limit_kind id)

/-- `translate_limits`. -/
def translate_limits (fuel : Nat) (l : JVal) :
    TrM (List (AstNode LimitKind × AstNode ExprV)) := do
  let elems ← jElems l
  elems.mapM fun e => do
    let e0 ← jIndexNat e 0
    let lk ← translate_limit_kind e0
    let e1 ← jIndexNat e 1
    let ex ← translate_expr fuel e1
    pure (lk, ex)

/-- `translate_formal_params`. -/
def translate_formal_params (fuel : Nat) (params_list : JVal) :
    TrM (List (Annotated (AstNode FormalParamV))) := do
  let elems ← jElems params_list
  elems.mapM fun p => do
    let node ← jIndexNat p 1
    let (data, id) ← read_ast_node node
    let nm ← jIndexKey data "name"
    let kindDict ← jIndexKey data "kind"
    let kind : FormalParamKind :=
      if jHasKey kindDict "Value" then .value else .ref
    let tnDict ← jIndexKey data "typeName"
    let type_name_node ← translate_type_name fuel tnDict
    let formal_param : FormalParamV := ⟨kind, nm, type_name_node⟩
    let param_ast_node := AstNode.create_with_id formal_param id
    let p0 ← jIndexNat p 0
    let p2 ← jIndexNat p 2
    pure (annotate p0 param_ast_node p2)

/-- `translate_def_abs_type`. -/
def translate_def_abs_type (data id : JVal) : TrM (AstNode DefAbsTypeV) := do
  let nm ← jIndexKey data "name"
  pure (AstNode.create_with_id (DefAbsTypeV.mk nm) id)

/-- `translate_def_alias_type`. -/
def translate_def_alias_type (fuel : Nat) (data id : JVal) :
    TrM (AstNode DefAliasTypeV) := do
  let nm ← jIndexKey data "name"
  let tnDict ← jIndexKey data "typeName"
  let tn ← translate_type_name fuel tnDict
  pure (AstNode.create_with_id (DefAliasTypeV.mk nm tn) id)

/-- `translate_def_array`. -/
def translate_def_array (fuel : Nat) (data id : JVal) :
    TrM (AstNode DefArrayV) := do
  let nm ← jIndexKey data "name"
  let sizeDict ← jIndexKey data "size"
  let size ← translate_expr fuel sizeDict
  let eltDict ← jIndexKey data "eltType"
  let elt ← translate_type_name fuel eltDict
  let dfltDict ← jIndexKey data "default"
  let dflt ← translate_optional dfltDict (translate_expr fuel)
  let fmtDict ← jIndexKey data "format"
  let fmt ← translate_optional fmtDict translate_string
  pure (AstNode.create_with_id (DefArrayV.mk nm size elt dflt fmt) id)

/-- `translate_def_constant`. -/
def translate_def_constant (fuel : Nat) (data id : JVal) :
    TrM (AstNode DefConstantV) := do
  let nm ← jIndexKey data "name"
  let valDict ← jIndexKey data "value"
  let v ← translate_expr fuel valDict
  pure (AstNode.create_with_id (DefConstantV.mk nm v) id)

/-- `translate_def_enum`: the loop over `data["constants"]` rebinds `c` and
`node` on every iteration, but the single `constants.append(...)` sits after
the loop, so only the constant of the final iteration is appended; when the
constant list is empty the trailing append reads the unbound loop variable
and raises `NameError`. -/
def translate_def_enum (fuel : Nat) (data id : JVal) :
    TrM (AstNode DefEnumV) := do
  let constantsDict ← jIndexKey data "constants"
  let elems ← jElems constantsDict
  let pairs ← elems.mapM fun c => do
    let const ← jIndexNat c 1
    let (const_data, const_id) ← read_ast_node const
    let nm ← jIndexKey const_data "name"
    let valDict ← jIndexKey const_data "value"
    let v ← translate_optional valDict (translate_expr fuel)
    pure (c, AstNode.create_with_id (DefEnumConstantV.mk nm v) const_id)
  let constants ←
    match pairs.getLast? with
    | none => TrM.raise (.nameError "name c is not defined")
    | some (c, node) => do
      let c0 ← jIndexNat c 0
      let c2 ← jIndexNat c 2
      pure [annotate c0 node c2]
  let nm ← jIndexKey data "name"
  let tnDict ← jIndexKey data "typeName"
  let tn ← translate_optional tnDict (translate_type_name fuel)
  pure (AstNode.create_with_id (DefEnumV.mk nm tn constants) id)

/-- `translate_def_struct`. -/
def translate_def_struct (fuel : Nat) (data id : JVal) :
    TrM (AstNode DefStructV) := do
  let membersDict ← jIndexKey data "members"
  let elems ← jElems membersDict
  let struct_members ← elems.mapM fun m => do
    let m1 ← jIndexNat m 1
    let (member_data, member_id) ← read_ast_node m1
    let nm ← jIndexKey member_data "name"
    let sizeDict ← jIndexKey member_data "size"
    let size ← translate_optional sizeDict (translate_expr fuel)
    let tnDict ← jIndexKey member_data "typeName"
    let tn ← translate_type_name fuel tnDict
    let fmtDict ← jIndexKey member_data "format"
    let fmt ← translate_optional fmtDict translate_string
    let node := AstNode.create_with_id (StructTypeMemberV.mk nm size tn fmt) member_id
    let m0 ← jIndexNat m 0
    let m2 ← jIndexNat m 2
    pure (annotate m0 node m2)
  let nm ← jIndexKey data "name"
  let dfltDict ← jIndexKey data "default"
  let dflt ← translate_optional dfltDict (translate_expr fuel)
  pure (AstNode.create_with_id (DefStructV.mk nm struct_members dflt) id)

/-- `translate_special_input_kind`. -/
def translate_special_input_kind (d : JVal) : TrM SpecialInputKind :=
  if jHasKey d "Async" then pure .async
  else if jHasKey d "Sync" then pure .sync
  else if jHasKey d "Guarded" then pure .guarded
  else TrM.raise (.exception "Invalid special input kind dictionary")

/-- `translate_special_kind`. -/
def translate_special_kind (d : JVal) : TrM SpecialKind :=
  if jHasKey d "CommandRecv" then pure .commandRecv
  else if jHasKey d "CommandReg" then pure .commandReg
  else if jHasKey d "CommandResp" then pure .commandResp
  else if jHasKey d "Event" then pure .event
  else if jHasKey d "ParamGet" then pure .paramGet
  else if jHasKey d "ParamSet" then pure .paramSet
  else if jHasKey d "ProductGet" then pure .productGet
  else if jHasKey d "ProductRecv" then pure .productRecv
  else if jHasKey d "ProductRequest" then pure .productRequest
  else if jHasKey d "ProductSend" then pure .productSend
  else if jHasKey d "Telemetry" then pure .telemetry
  else if jHasKey d "TextEvent" then pure .textEvent
  else if jHasKey d "TimeGet" then pure .timeGet
  else TrM.raise (.exception "Invalid special kind dictionary")

/-- `translate_general_kind`. -/
def translate_general_kind (d : JVal) : TrM GeneralKind :=
  if jHasKey d "AsyncInput" then pure .asyncInput
  else if jHasKey d "GuardedInput" then pure .guardedInput
  else if jHasKey d "Output" then pure .output
  else if jHasKey d "SyncInput" then pure .syncInput
  else TrM.raise (.exception "Invalid general kind dictionary")

/-- `translate_pattern_kind`: dispatches on the first key and raises
`InvalidFppToJsonField` on an unknown kind. -/
def translate_pattern_kind (d : JVal) : TrM PatternKind := do
  let kind ← jFirstKey d
  match kind with
  | "Command" => pure .command
  | "Event" => pure .event
  | "Health" => pure .health
  | "Param" => pure .param
  | "Telemetry" => pure .telemetry
  | "TextEvent" => pure .textEvent
  | "Time" => pure .time
  | _ => TrM.raise (.invalidFppToJsonField kind)

/-- `translate_port_instance`. -/
def translate_port_instance (fuel : Nat) (d : JVal) :
    TrM SpecPortInstanceV := do
  let an ← jIndexKey d "AstNode"
  let dd ← jIndexKey an "data"
  if jHasKey dd "Special" then do
    let special_node ← jIndexKey dd "Special"
    let ikDict ← jIndexKey special_node "inputKind"
    let input_kind ← translate_optional ikDict translate_special_input_kind
    let kDict ← jIndexKey special_node "kind"
    let kind ← translate_special_kind kDict
    let nm ← jIndexKey special_node "name"
    let prDict ← jIndexKey special_node "priority"
    let priority ← translate_optional prDict (translate_expr fuel)
    let qfDict ← jIndexKey special_node "queueFull"
    let queue_full ← translate_optional qfDict (fun v => pure (translate_queue_full v))
    pure (.special input_kind kind nm priority queue_full)
  else if jHasKey dd "General" then do
    let general_node ← jIndexKey dd "General"
    let kDict ← jIndexKey general_node "kind"
    let kind ← translate_general_kind kDict
    let nm ← jIndexKey general_node "name"
    let szDict ← jIndexKey general_node "size"
    let size ← translate_optional szDict (translate_expr fuel)
    let portDict ← jIndexKey general_node "port"
    let port ← translate_optional portDict (translate_qual_ident fuel)
    let prDict ← jIndexKey general_node "priority"
    let priority ← translate_optional prDict (translate_expr fuel)
    let qfDict ← jIndexKey general_node "queueFull"
    let queue_full ← translate_optional qfDict (fun v => pure (translate_queue_full v))
    pure (.general kind nm size port priority queue_full)
  else
    TrM.raise (.exception "Invalid port instance dictionary")

/-- `translate_port_instance_identifier`: reads the tagged node but discards
the id and returns a bare `PortInstanceIdentifier`. -/
def translate_port_instance_identifier (fuel : Nat) (d : JVal) :
    TrM PortInstanceIdentifierV := do
  let (data, _) ← read_ast_node d
  let ciDict ← jIndexKey data "componentInstance"
  let ci ← translate_qual_ident fuel ciDict
  let pnDict ← jIndexKey data "portName"
  let pn ← translate_ident pnDict
  pure ⟨ci, pn⟩

/-- `translate_tlm_channel_identifier`. -/
def translate_tlm_channel_identifier (fuel : Nat) (d : JVal) :
    TrM (AstNode TlmChannelIdentifierV) := do
  let (data, id) ← read_ast_node d
  let ciDict ← jIndexKey data "componentInstance"
  let ci ← translate_qual_ident fuel ciDict
  let cnDict ← jIndexKey data "channelName"
  let cn ← translate_ident cnDict
  pure (AstNode.create_with_id (TlmChannelIdentifierV.mk ci cn) id)

/-- `translate_init_specs`. -/
def translate_init_specs (fuel : Nat) (l : JVal) :
    TrM (List (Annotated (AstNode SpecInitV))) := do
  let elems ← jElems l
  elems.mapM fun e => do
    let spec_node ← jIndexNat e 1
    let an ← jIndexKey spec_node "AstNode"
    let data ← jIndexKey an "data"
    let an2 ← jIndexKey spec_node "AstNode"
    let id ← jIndexKey an2 "id"
    let phDict ← jIndexKey data "phase"
    let phase ← translate_expr fuel phDict
    let code ← jIndexKey data "code"
    let spec := AstNode.create_with_id (SpecInitV.mk phase code) id
    let e0 ← jIndexNat e 0
    let e2 ← jIndexNat e 2
    pure (annotate e0 spec e2)

/-- `translate_component_members`: single-key dispatch with
`InvalidFppToJsonField` on an unknown key.  Only the five `Def*` arms can
construct a member: the other eleven arms name wrapper classes
(`ComponentMemberSpecCommand`, `ComponentMemberDefStruct`, and so on) that
`fpp_ast.py` never defines, and Python loads the callable before evaluating
its arguments, so each of those arms raises `NameError` on entry, before
any field is read or any child is translated. -/
def translate_component_members (fuel : Nat) (l : JVal) :
    TrM (List (Annotated ComponentMemberNodeV)) := do
  let elems ← jElems l
  elems.mapM fun m => do
    let m1 ← jIndexNat m 1
    let m_key ← jFirstKey m1
    let nodeV ← jIndexKey m1 m_key
    let nn ← jIndexKey nodeV "node"
    let (data, id) ← read_ast_node nn
    let member : TrM ComponentMemberNodeV :=
      match m_key with
      | "DefAbsType" => do
        let n ← translate_def_abs_type data id
        pure (.defAbsType n)
      | "DefAliasType" => do
        let n ← translate_def_alias_type fuel data id
        pure (.defAliasType n)
      | "DefArray" => do
        let n ← translate_def_array fuel data id
        pure (.defArray n)
      | "DefConstant" => do
        let n ← translate_def_constant fuel data id
        pure (.defConstant n)
      | "DefEnum" => do
        let n ← translate_def_enum fuel data id
        pure (.defEnum n)
      | "SpecCommand" =>
        TrM.raise (.nameError "name ComponentMemberSpecCommand is not defined")
      | "DefStruct" =>
        TrM.raise (.nameError "name ComponentMemberDefStruct is not defined")
      | "SpecTlmChannel" =>
        TrM.raise (.nameError "name ComponentMemberSpecTlmChannel is not defined")
      | "SpecEvent" =>
        TrM.raise (.nameError "name ComponentMemberSpecEvent is not defined")
      | "SpecRecord" =>
        TrM.raise (.nameError "name ComponentMemberSpecRecord is not defined")
      | "SpecContainer" =>
        TrM.raise (.nameError "name ComponentMemberSpecContainer is not defined")
      | "SpecParam" =>
        TrM.raise (.nameError "name ComponentMemberSpecParam is not defined")
      | "SpecPortMatching" =>
        TrM.raise (.nameError "name ComponentMemberSpecPortMatching is not defined")
      | "SpecInternalPort" =>
        TrM.raise (.nameError "name ComponentMemberSpecInternalPort is not defined")
      | "SpecPortInstance" =>
        TrM.raise (.nameError "name ComponentMemberSpecPortInstance is not defined")
      | "SpecImportInterface" =>
        TrM.raise (.nameError "name ComponentMemberSpecImportInterface is not defined")
      | _ => TrM.raise (.invalidFppToJsonField m_key)
    let memberV ← member
    let m0 ← jIndexNat m 0
    let m2 ← jIndexNat m 2
    pure (annotate m0 memberV m2)

/-- `translate_state_members`: self-recursive through nested `DefState`
members. -/
def translate_state_members : Nat → JVal → TrM (List (Annotated StateMemberNodeV))
  | 0, _ => TrM.raise .recursionError
  | fuel + 1, l => do
    let elems ← jElems l
    elems.mapM fun m => do
      let m_dict ← jIndexNat m 1
      let m_key ← jFirstKey m_dict
      let v ← jIndexKey m_dict m_key
      let nn ← jIndexKey v "node"
      let (data, id) ← read_ast_node nn
      let member : TrM StateMemberNodeV :=
        match m_key with
        | "DefChoice" => do
          let nm ← jIndexKey data "name"
          let gDict ← jIndexKey data "guard"
          let guard ← translate_ident gDict
          let itDict ← jIndexKey data "ifTransition"
          let it ← translate_transition_expr fuel itDict
          let etDict ← jIndexKey data "elseTransition"
          let et ← translate_transition_expr fuel etDict
          pure (.defChoice (AstNode.create_with_id
            (DefChoiceV.mk nm guard it et) id))
        | "DefState" => do
          let nm ← jIndexKey data "name"
          let membersDict ← jIndexKey data "members"
          let subMembers ← translate_state_members fuel membersDict
          pure (.defState (AstNode.create_with_id
            (DefStateV.mk nm subMembers) id))
        | "SpecStateEntry" => do
          let aDict ← jIndexKey data "actions"
          let actions ← translate_actions aDict
          pure (.specStateEntry (AstNode.create_with_id
            (SpecStateEntryV.mk actions) id))
        | "SpecStateExit" => do
          let aDict ← jIndexKey data "actions"
          let actions ← translate_actions aDict
          pure (.specStateExit (AstNode.create_with_id
            (SpecStateExitV.mk actions) id))
        | "SpecInitialTransition" => do
          let tDict ← jIndexKey data "transition"
          let t ← translate_transition_expr fuel tDict
          pure (.specInitialTransition (AstNode.create_with_id
            (SpecInitialTransitionV.mk t) id))
        | "SpecStateTransition" => do
          let sDict ← jIndexKey data "signal"
          let signal ← translate_ident sDict
          let todDict ← jIndexKey data "transitionOrDo"
          let transition_or_do ← translate_transition_or_do fuel todDict
          let gDict ← jIndexKey data "guard"
          let guard ← translate_optional gDict translate_ident
          pure (.specStateTransition (AstNode.create_with_id
            (SpecStateTransitionV.mk signal guard transition_or_do) id))
        | _ => TrM.raise (.invalidFppToJsonField m_key)
      let memberV ← member
      let m0 ← jIndexNat m 0
      let m2 ← jIndexNat m 2
      pure (annotate m0 memberV m2)

/-- `translate_interface_members`. -/
def translate_interface_members (fuel : Nat) (l : JVal) :
    TrM (List (Annotated InterfaceMemberNodeV)) := do
  let elems ← jElems l
  elems.mapM fun m => do
    let nd ← jIndexKey m "node"
    let m_dict ← jIndexNat nd 1
    let m_key ← jFirstKey m_dict
    let v ← jIndexKey m_dict m_key
    let nn ← jIndexKey v "node"
    let an ← jIndexKey nn "AstNode"
    let id ← jIndexKey an "id"
    let an2 ← jIndexKey nn "AstNode"
    let data ← jIndexKey an2 "data"
    let member : TrM InterfaceMemberNodeV :=
      match m_key with
      | "SpecPortInstance" => do
        let pi ← translate_port_instance fuel nn
        pure (.specPortInstance (AstNode.create_with_id pi id))
      | "SpecImportInterface" => do
        let symDict ← jIndexKey data "sym"
        let sym ← translate_qual_ident fuel symDict
        pure (.specImportInterface (AstNode.create_with_id
          (SpecImportV.mk sym) id))
      | _ => TrM.raise (.invalidFppToJsonField m_key)
    let memberV ← member
    let nd2 ← jIndexKey m "node"
    let m0 ← jIndexNat nd2 0
    let m2 ← jIndexNat nd2 2
    pure (annotate m0 memberV m2)

/-- `translate_tlm_packet_set_members`: builds an annotated member per
`SpecTlmPacket` element, raises `NotSupportedInFppToJsonException` on a
`SpecInclude` element, silently skips anything else — and then falls off
the end without a `return` statement, so the accumulated list is discarded
and the caller receives `None`. -/
def translate_tlm_packet_set_members (fuel : Nat) (d : JVal) :
    TrM (Option (List (Annotated TlmPacketSetMemberNodeV))) := do
  let elems ← jElems d
  let _members ← elems.foldlM
    (fun acc member => do
      let nd ← jIndexKey member "node"
      let node ← jIndexNat nd 1
      if jHasKey node "SpecTlmPacket" then do
        let stp ← jIndexKey node "SpecTlmPacket"
        let stpNode ← jIndexKey stp "node"
        let (spec_tlm_pkt_data, spec_tlm_pkt_id) ← read_ast_node stpNode
        let pktMembersDict ← jIndexKey spec_tlm_pkt_data "members"
        let pktElems ← jElems pktMembersDict
        let tlm_pkt_members ← pktElems.foldlM
          (fun acc2 m => do
            if jHasKey m "TlmChannelIdentifier" then do
              let tci ← jIndexKey m "TlmChannelIdentifier"
              let chan_ident_node ← jIndexKey tci "node"
              let ci ← translate_tlm_channel_identifier fuel chan_ident_node
              let an ← jIndexKey chan_ident_node "AstNode"
              let cid ← jIndexKey an "id"
              pure (acc2 ++ [TlmPacketMemberV.tlmChannelIdentifier
                (AstNode.create_with_id ci cid)])
            else
              pure acc2)
          []
        let nm ← jIndexKey spec_tlm_pkt_data "name"
        let idDict ← jIndexKey spec_tlm_pkt_data "id"
        let pid ← translate_optional idDict (translate_expr fuel)
        let group ← jIndexKey spec_tlm_pkt_data "group"
        let pkt := TlmPacketSetMemberNodeV.specTlmPacket
          (AstNode.create_with_id
            (SpecTlmPacketV.mk nm pid group tlm_pkt_members) spec_tlm_pkt_id)
        let nd2 ← jIndexKey member "node"
        let m0 ← jIndexNat nd2 0
        let m2 ← jIndexNat nd2 2
        pure (acc ++ [annotate m0 pkt m2])
      else if jHasKey node "SpecInclude" then
        TrM.raise (.notSupportedInFppToJson "SpecInclude")
      else
        pure acc)
    []
  pure none

/-- `translate_topology_members`: note that the `SpecInclude` arm raises a
plain `Exception`, not `NotSupportedInFppToJsonException`, and that members
are appended without annotation. -/
def translate_topology_members (fuel : Nat) (l : JVal) :
    TrM (List TopologyMemberNodeV) := do
  let elems ← jElems l
  elems.mapM fun m => do
    let m_dict ← jIndexNat m 1
    let m_key ← jFirstKey m_dict
    let v ← jIndexKey m_dict m_key
    let nn ← jIndexKey v "node"
    let an ← jIndexKey nn "AstNode"
    let id ← jIndexKey an "id"
    let an2 ← jIndexKey nn "AstNode"
    let data ← jIndexKey an2 "data"
    match m_key with
    | "SpecCompInstance" => do
      let visDict ← jIndexKey data "visibility"
      let visibility : Visibility :=
        if jHasKey visDict "Public" then .public_kind else .private_kind
      let instDict ← jIndexKey data "instance"
      let inst ← translate_qual_ident fuel instDict
      pure (TopologyMemberNodeV.specCompInstance (AstNode.create_with_id
        (SpecCompInstanceV.mk visibility inst) id))
    | "SpecConnectionGraph" => do
      let connection_graph ←
        if jHasKey data "Direct" then do
          let direct ← jIndexKey data "Direct"
          let connsDict ← jIndexKey direct "connections"
          let connElems ← jElems connsDict
          let connections ← connElems.mapM fun c => do
            let fiDict ← jIndexKey c "fromIndex"
            let from_index ←
              if jIsStrNoneLiteral fiDict then pure none
              else do
                let sv ← jIndexKey fiDict "Some"
                let e ← translate_expr fuel sv
                pure (some e)
            let tiDict ← jIndexKey c "toIndex"
            let to_index ←
              if jIsStrNoneLiteral tiDict then pure none
              else do
                let sv ← jIndexKey tiDict "Some"
                let e ← translate_expr fuel sv
                pure (some e)
            let isUn ← jIndexKey c "isUnmatched"
            let fpDict ← jIndexKey c "fromPort"
            let fp ← translate_port_instance_identifier fuel fpDict
            let tpDict ← jIndexKey c "toPort"
            let tp ← translate_port_instance_identifier fuel tpDict
            pure (ConnectionV.mk isUn fp from_index tp to_index)
          let direct2 ← jIndexKey data "Direct"
          let nm ← jIndexKey direct2 "name"
          pure (SpecConnectionGraphV.direct nm connections)
        else if jHasKey data "Pattern" then do
          let patt ← jIndexKey data "Pattern"
          let targetsDict ← jIndexKey patt "targets"
          let tgtElems ← jElems targetsDict
          let targets ← tgtElems.mapM (translate_qual_ident fuel)
          let patt2 ← jIndexKey data "Pattern"
          let kDict ← jIndexKey patt2 "kind"
          let kind ← translate_pattern_kind kDict
          let patt3 ← jIndexKey data "Pattern"
          let srcDict ← jIndexKey patt3 "source"
          let src ← translate_qual_ident fuel srcDict
          pure (SpecConnectionGraphV.pattern kind src targets)
        else
          TrM.raise (.exception "Invalid SpecConnectionGraph dictionary")
      pure (TopologyMemberNodeV.specConnectionGraph
        (AstNode.create_with_id connection_graph id))
    | "SpecInclude" =>
      TrM.raise (.exception "SpecInclude translation not implemented")
    | "SpecTlmPacketSet" => do
      let omDict ← jIndexKey data "omitted"
      let omElems ← jElems omDict
      let omitted ← omElems.mapM (translate_tlm_channel_identifier fuel)
      let nm ← jIndexKey data "name"
      let membersDict ← jIndexKey data "members"
      let members ← translate_tlm_packet_set_members fuel membersDict
      pure (TopologyMemberNodeV.specTlmPacketSet (AstNode.create_with_id
        (SpecTlmPacketSetV.mk nm members omitted) id))
    | "SpecTopImport" => do
      let symDict ← jIndexKey data "sym"
      let sym ← translate_qual_ident fuel symDict
      pure (TopologyMemberNodeV.specTopImport (AstNode.create_with_id
        (SpecImportV.mk sym) id))
    | _ => TrM.raise (.invalidFppToJsonField m_key)

/-- `translate_state_machine_members`: decodes nothing unless the optional
wrapper `d.get("Some")` is truthy; iterates all items of the dictionary held
by each list element. -/
def translate_state_machine_members (fuel : Nat) (d : JVal) :
    TrM (List (Annotated StateMachineMemberNodeV)) := do
  if optTruthy (jGet d "Some") then do
    let someDict ← jIndexKey d "Some"
    let elems ← jElems someDict
    let memberLists ← elems.mapM fun l => do
      let l1 ← jIndexNat l 1
      let items ← jItems l1
      let inner ← items.mapM fun kv => do
        let k := kv.1
        let v := kv.2
        let nn ← jIndexKey v "node"
        let (data, id) ← read_ast_node nn
        let member : TrM StateMachineMemberNodeV :=
          match k with
          | "DefAction" => do
            let nm ← jIndexKey data "name"
            let tnDict ← jIndexKey data "typeName"
            let tn ← translate_optional tnDict (translate_type_name fuel)
            pure (.defAction (AstNode.create_with_id (DefActionV.mk nm tn) id))
          | "DefChoice" => do
            let nm ← jIndexKey data "name"
            let gDict ← jIndexKey data "guard"
            let guard ← translate_ident gDict
            let itDict ← jIndexKey data "ifTransition"
            let it ← translate_transition_expr fuel itDict
            let etDict ← jIndexKey data "elseTransition"
            let et ← translate_transition_expr fuel etDict
            pure (.defChoice (AstNode.create_with_id
              (DefChoiceV.mk nm guard it et) id))
          | "DefGuard" => do
            let nm ← jIndexKey data "name"
            let tnDict ← jIndexKey data "typeName"
            let tn ← translate_optional tnDict (translate_type_name fuel)
            pure (.defGuard (AstNode.create_with_id (DefGuardV.mk nm tn) id))
          | "DefSignal" => do
            let nm ← jIndexKey data "name"
            let tnDict ← jIndexKey data "typeName"
            let tn ← translate_optional tnDict (translate_type_name fuel)
            pure (.defSignal (AstNode.create_with_id (DefSignalV.mk nm tn) id))
          | "DefState" => do
            let nm ← jIndexKey data "name"
            let membersDict ← jIndexKey data "members"
            let subMembers ← translate_state_members fuel membersDict
            pure (.defState (AstNode.create_with_id
              (DefStateV.mk nm subMembers) id))
          | "SpecInitialTransition" => do
            let tDict ← jIndexKey data "transition"
            let t ← translate_transition_expr fuel tDict
            pure (.specInitialTransition (AstNode.create_with_id
              (SpecInitialTransitionV.mk t) id))
          | _ => TrM.raise (.invalidFppToJsonField k)
        let memberV ← member
        let l0 ← jIndexNat l 0
        let l2 ← jIndexNat l 2
        pure (annotate l0 memberV l2)
      pure inner
    pure memberLists.flatten
  else
    pure []

/-- `translate_module_members`: iterates all items of the dictionary held in
the second component of each list element, reads `(data, id)` and the `name`
field before dispatching, and self-recurses for nested modules. -/
def translate_module_members : Nat → JVal → TrM (List (Annotated ModuleMemberNodeV))
  | 0, _ => TrM.raise .recursionError
  | fuel + 1, l => do
    let elems ← jElems l
    let memberLists ← elems.mapM fun m => do
      let m1 ← jIndexNat m 1
      let items ← jItems m1
      items.mapM fun kv => do
        let k := kv.1
        let v := kv.2
        let nn ← jIndexKey v "node"
        let (data, id) ← read_ast_node nn
        let nm ← jIndexKey data "name"
        let member : TrM ModuleMemberNodeV :=
          match k with
          | "DefAbsType" => do
            let n ← translate_def_abs_type data id
            pure (.defAbsType n)
          | "DefAliasType" => do
            let n ← translate_def_alias_type fuel data id
            pure (.defAliasType n)
          | "DefArray" => do
            let n ← translate_def_array fuel data id
            pure (.defArray n)
          | "DefComponent" => do
            let kDict ← jIndexKey data "kind"
            let kind ←
              if jHasKey kDict "Active" then pure ComponentKind.active
              else if jHasKey kDict "Passive" then pure ComponentKind.passive
              else if jHasKey kDict "Queued" then pure ComponentKind.queued
              else TrM.raise (.exception "Invalid component kind dictionary")
            let membersDict ← jIndexKey data "members"
            let members ← translate_component_members fuel membersDict
            pure (.defComponent (AstNode.create_with_id
              (DefComponentV.mk kind nm members) id))
          | "DefComponentInstance" => do
            let cDict ← jIndexKey data "component"
            let comp ← translate_qual_ident fuel cDict
            let biDict ← jIndexKey data "baseId"
            let base_id ← translate_expr fuel biDict
            let itDict ← jIndexKey data "implType"
            let impl_type ← translate_optional itDict translate_string
            let fDict ← jIndexKey data "file"
            let file ← translate_optional fDict translate_string
            let qsDict ← jIndexKey data "queueSize"
            let queue_size ← translate_optional qsDict (translate_expr fuel)
            let ssDict ← jIndexKey data "stackSize"
            let stack_size ← translate_optional ssDict (translate_expr fuel)
            let prDict ← jIndexKey data "priority"
            let priority ← translate_optional prDict (translate_expr fuel)
            let cpuDict ← jIndexKey data "cpu"
            let cpu ← translate_optional cpuDict (translate_expr fuel)
            let isDict ← jIndexKey data "initSpecs"
            let init_specs ← translate_init_specs fuel isDict
            pure (.defComponentInstance (AstNode.create_with_id
              (DefComponentInstanceV.mk nm comp base_id impl_type file
                queue_size stack_size priority cpu init_specs) id))
          | "DefConstant" => do
            let n ← translate_def_constant fuel data id
            pure (.defConstant n)
          | "DefEnum" => do
            let n ← translate_def_enum fuel data id
            pure (.defEnum n)
          | "DefInterface" => do
            let membersDict ← jIndexKey data "members"
            let members ← translate_interface_members fuel membersDict
            pure (.defInterface (AstNode.create_with_id
              (DefInterfaceV.mk nm members) id))
          | "DefModule" => do
            let membersDict ← jIndexKey data "members"
            let members ← translate_module_members fuel membersDict
            pure (.defModule (AstNode.create_with_id
              (DefModuleV.mk nm members) id))
          | "DefPort" => do
            let paramsDict ← jIndexKey data "params"
            let params ← translate_formal_params fuel paramsDict
            let rtDict ← jIndexKey data "returnType"
            let rt ← translate_optional rtDict (translate_type_name fuel)
            pure (.defPort (AstNode.create_with_id
              (DefPortV.mk nm params rt) id))
          | "DefStateMachine" => do
            let membersDict ← jIndexKey data "members"
            let members ← translate_state_machine_members fuel membersDict
            pure (.defStateMachine (AstNode.create_with_id
              (DefStateMachineV.mk nm members) id))
          | "DefStruct" => do
            let n ← translate_def_struct fuel data id
            pure (.defStruct n)
          | "DefTopology" => do
            let membersDict ← jIndexKey data "members"
            let members ← translate_topology_members fuel membersDict
            pure (.defTopology (AstNode.create_with_id
              (DefTopologyV.mk nm members) id))
          | "SpecInclude" => TrM.raise (.notSupportedInFppToJson k)
          | "SpecLoc" => TrM.raise (.notSupportedInFppToJson k)
          | _ => TrM.raise (.invalidFppToJsonField k)
        let memberV ← member
        let m0 ← jIndexNat m 0
        let m2 ← jIndexNat m 2
        pure (annotate m0 memberV m2)
    pure memberLists.flatten

/-! Embedding of `translate_location_map_json` (the bulk registry load).
The file-existence check and `json.load` happen at the boundary, outside
this model; the loader is embedded from the parsed object onward.  It runs
in the raw monad because `Locations.put` mutates the registry. -/

/-- Interpret a translator computation in the raw monad. -/
def TrM.toPyM (x : TrM α) : PyM α := x.val

/-- Lift a pure fallible computation into the raw monad. -/
def PyM.ofExcept (x : Except PyErr α) : PyM α := fun s => (x, s)

/-- The value of a decimal digit character. -/
def digitVal (c : Char) : Option Nat :=
  if c = '0' then some 0 else if c = '1' then some 1 else if c = '2' then some 2
  else if c = '3' then some 3 else if c = '4' then some 4 else if c = '5' then some 5
  else if c = '6' then some 6 else if c = '7' then some 7 else if c = '8' then some 8
  else if c = '9' then some 9 else none

/-- Accumulate decimal digits; `none` marks either no digit seen yet (the
initial accumulator) or a non-digit character (failure). -/
def pyIntDigits : List Char → Option Nat → Option Nat
  | [], acc => acc
  | c :: rest, acc =>
    match digitVal c, acc with
    | some d, some a => pyIntDigits rest (some (a * 10 + d))
    | some d, none => pyIntDigits rest (some d)
    | none, _ => none

/-- Python `int(k)` on a string key: an optional sign followed by decimal
digits (the syntax of the string-encoded ids of the location map; other
accepted Python spellings such as embedded underscores or surrounding
whitespace do not occur in the modelled inputs); `ValueError` otherwise. -/
def pyInt (k : String) : Except PyErr Int :=
  match k.data with
  | '-' :: rest =>
    match pyIntDigits rest none with
    | some n => .ok (-(n : Int))
    | none => .error (.valueError "invalid literal for int")
  | cs =>
    match pyIntDigits cs none with
    | some n => .ok (n : Int)
    | none => .error (.valueError "invalid literal for int")

/-- Python `Path(v)`: accepts a string, `TypeError` otherwise. -/
def pyPath (v : JVal) : Except PyErr String :=
  match v with
  | .str s => .ok s
  | _ => .error (.typeError "argument should be a str or an os.PathLike object")

/-- The body of one loader iteration:
`Locations.put(int(k), Location(Path(v["file"]), v["pos"], v["includingLoc"]))`.
All three descriptor fields are read with plain indexing, so each of them —
`includingLoc` included — raises `KeyError` when absent. -/
def load_location_entry_body (k : String) (v : JVal) : PyM Unit := do
  let kid ← PyM.ofExcept (pyInt k)
  let fileJ ← TrM.toPyM (jIndexKey v "file")
  let fileS ← PyM.ofExcept (pyPath fileJ)
  let posJ ← TrM.toPyM (jIndexKey v "pos")
  let incJ ← TrM.toPyM (jIndexKey v "includingLoc")
  Locations.put kid (Location.mk fileS posJ incJ)

/-- One loader iteration with its `except KeyError` handler, which re-raises
a `KeyError` whose message names the entry id and the missing field. -/
def load_location_entry (k : String) (v : JVal) : PyM Unit := fun s =>
  match load_location_entry_body k v s with
  | (.error (.keyError f), s') =>
    (.error (.keyError
      ("Location map for ID " ++ k ++ " is missing required field " ++ f)), s')
  | r => r

/-- The loader loop over `data.items()` followed by `Locations.get_map()`. -/
def translate_location_map_json (data : JVal) : PyM (List (Int × Location)) := do
  let items ← TrM.toPyM (jItems data)
  items.forM fun kv => load_location_entry kv.1 kv.2
  Locations.get_map

/-! Concrete inputs used by the evaluation theorems below. -/

/-- The initial session state: counter at zero, empty registry. -/
def s0 : SessionState := ⟨0, []⟩

/-- Build a tagged node object. -/
def mkAstNodeJ (id data : JVal) : JVal :=
  .obj [("AstNode", .obj [("id", id), ("data", data)])]

/-- An absent-encoded optional field (no `Some` key). -/
def noSome : JVal := .obj [("None", .obj [])]

/-- A qualified-identifier node carrying an unrecognized variant key. -/
def c2_bogus_qual_ident : JVal :=
  mkAstNodeJ (.int 3) (.obj [("Bogus", .bool true)])

/-- A topology member list holding one `SpecInclude` member. -/
def c2_topology_include : JVal :=
  .arr [.arr [.arr [],
    .obj [("SpecInclude", .obj [("node",
      mkAstNodeJ (.int 6) (.obj [("file", .str "x.fppi")]))])],
    .arr []]]

/-- A module member list holding one `SpecLoc` member whose payload happens
to contain a `name` field (so control reaches the dispatch). -/
def c2_module_loc : JVal :=
  .arr [.arr [.arr [],
    .obj [("SpecLoc", .obj [("node",
      mkAstNodeJ (.int 7) (.obj [("name", .str "x")]))])],
    .arr []]]

/-- A module member list holding one `SpecInclude` member with a realistic
payload (a `file` field and no `name` field). -/
def c2_module_include : JVal :=
  .arr [.arr [.arr [],
    .obj [("SpecInclude", .obj [("node",
      mkAstNodeJ (.int 8) (.obj [("file", .str "y.fppi")]))])],
    .arr []]]

/-- One annotated enum-constant element with id `i`, name `nm` and an
absent-encoded value. -/
def c3_enum_constant (i : Int) (nm : String) : JVal :=
  .arr [.arr [], mkAstNodeJ (.int i)
    (.obj [("name", .str nm), ("value", noSome)]), .arr []]

/-- An enum payload with two constants `A` (id 1) and `B` (id 2). -/
def c3_enum_data : JVal :=
  .obj [("name", .str "E"), ("typeName", noSome),
        ("constants", .arr [c3_enum_constant 1 "A", c3_enum_constant 2 "B"])]

/-- The enum node the translator actually produces for `c3_enum_data`: only
the final constant `B` survives. -/
def c3_enum_actual : AstNode DefEnumV :=
  AstNode.create_with_id
    (DefEnumV.mk (.str "E") none
      [annotate (.arr [])
        (AstNode.create_with_id (DefEnumConstantV.mk (.str "B") none) (.int 2))
        (.arr [])])
    (.int 9)

/-- A telemetry-packet-set member list holding one well-formed
`SpecTlmPacket`. -/
def c3_packet_list : JVal :=
  .arr [.obj [("node", .arr [.arr [],
    .obj [("SpecTlmPacket", .obj [("node",
      mkAstNodeJ (.int 4) (.obj [("name", .str "P"), ("id", noSome),
        ("group", .int 0), ("members", .arr [])]))])], .arr []])]]

/-- A transition-expression node with identity 5 whose target is the state
`S` (an unqualified identifier node with identity 9). -/
def c4_transition_input : JVal :=
  mkAstNodeJ (.int 5) (.obj [("actions", .arr []),
    ("target", mkAstNodeJ (.int 9)
      (.obj [("Unqualified", .obj [("name", .str "S")])]))])

/-- A string type name with identity 4 whose size field is present-encoded
(wrapping the integer literal 40 with identity 11). -/
def c5_sized_string_type : JVal :=
  mkAstNodeJ (.int 4)
    (.obj [("TypeNameString", .obj [("size", .obj [("Some",
      mkAstNodeJ (.int 11)
        (.obj [("ExprLiteralInt", .obj [("value", .str "40")])]))])])])

/-- C2: the error classification is broken at two of the three cited
dispatch points.  (1) `translate_qual_ident` on an unrecognized variant key
returns `None` silently — the `# TODO: raise error` path — instead of
raising `InvalidFppToJsonField`.  (2) `translate_topology_members` raises a
plain `Exception`, not `NotSupportedInFppToJsonException`, on the excluded
`SpecInclude` key.  (3) `translate_module_members` raises
`NotSupportedInFppToJsonException` on `SpecLoc` only when the payload has a
`name` field, because `data["name"]` is read before dispatch; (4) on a
realistic `SpecInclude` payload without `name` it raises `KeyError`
instead. -/
theorem c2_error_classification_violated :
    ((translate_qual_ident 5 c2_bogus_qual_ident).run s0).1 = .ok none
    ∧ ((translate_topology_members 5 c2_topology_include).run s0).1
        = .error (.exception "SpecInclude translation not implemented")
    ∧ ((translate_module_members 5 c2_module_loc).run s0).1
        = .error (.notSupportedInFppToJson "SpecLoc")
    ∧ ((translate_module_members 5 c2_module_include).run s0).1
        = .error (.keyError "name") :=
  ⟨rfl, rfl, rfl, rfl⟩

/-- C3: member lists are not mapped one-to-one.  `translate_def_enum` on an
enum with two constants returns a node holding a single annotated constant
(the last one, `B`), because the `constants.append` sits outside the loop;
and `translate_tlm_packet_set_members` on a one-packet list returns `None`
rather than a one-element list, because the function has no `return`
statement. -/
theorem c3_member_lists_dropped :
    (translate_def_enum 5 c3_enum_data (.int 9)).run s0
      = (.ok c3_enum_actual, s0)
    ∧ (translate_tlm_packet_set_members 5 c3_packet_list).run s0
        = (.ok none, s0) :=
  ⟨rfl, rfl⟩

/-- C4: identity carry-over fails for `translate_transition_expr`: on a
tagged node with identity 5 it returns a bare `TransitionExpr` record,
discarding the identity entirely (its target child keeps its own identity
9), while `translate_ident`, `translate_expr` and `translate_type_name` do
carry the input identity over verbatim (21, 42 and 33 here). -/
theorem c4_transition_expr_drops_id :
    ((translate_transition_expr 5 c4_transition_input).run s0).1
      = .ok ⟨[], some ⟨.unqualified (.str "S"), .int 9⟩⟩
    ∧ ((translate_ident (mkAstNodeJ (.int 21) (.str "foo"))).run s0).1
        = .ok ⟨"foo", .int 21⟩
    ∧ ((translate_expr 5 (mkAstNodeJ (.int 42)
          (.obj [("ExprLiteralInt", .obj [("value", .str "3")])]))).run s0).1
        = .ok ⟨.exprLiteralInt (.str "3"), .int 42⟩
    ∧ ((translate_type_name 5 (mkAstNodeJ (.int 33)
          (.obj [("TypeNameBool", .obj [])]))).run s0).1
        = .ok ⟨.bool, .int 33⟩ :=
  ⟨rfl, rfl, rfl, rfl⟩

/-- C5: optional-field fidelity fails for the size of a string type name:
a present-encoded size (`Some` wrapping the literal 40) still decodes to an
absent size, because `translate_type_name` rebuilds `TypeNameString(None)`
unconditionally.  The generic `translate_optional` itself does map absent to
absent and present to present. -/
theorem c5_string_size_dropped :
    ((translate_type_name 5 c5_sized_string_type).run s0).1
      = .ok ⟨.string none, .int 4⟩
    ∧ ((translate_optional (.obj []) translate_string).run s0).1 = .ok none
    ∧ ((translate_optional (.obj [("Some", mkAstNodeJ (.int 2) (.str "x"))])
          translate_string).run s0).1
        = .ok (some ⟨.str "x", .int 2⟩) :=
  ⟨rfl, rfl, rfl⟩

/-- C9: `translate_module_members` leaves the session state — the
`Locations` registry and the `AstNode._next_id` counter — exactly as it
found it, for every input list, every fuel bound and every starting state:
its type already confines it to the state-preserving submonad, whose
invariant was established pointwise for every primitive it is built from. -/
theorem c9_translate_module_members_preserves_state
    (fuel : Nat) (l : JVal) (s : SessionState) :
    ((translate_module_members fuel l).run s).2.locations = s.locations
    ∧ ((translate_module_members fuel l).run s).2.next_id = s.next_id :=
  ⟨congrArg SessionState.locations ((translate_module_members fuel l).property s),
   congrArg SessionState.next_id ((translate_module_members fuel l).property s)⟩

/-! Session-identity theorems (claim C7) and the loader / enum-kind
theorems (claims C8 and C10). -/

/-- A translation session that allocates one fresh node per payload with
`AstNode.create`, threading the class counter. -/
def createMany : List α → PyM (List (AstNode α))
  | [] => pure []
  | x :: xs => do
    let node ← AstNode.create x
    let rest ← createMany xs
    pure (node :: rest)

/-- The nodes such a session produces when the counter starts at `n`. -/
def freshNodes (xs : List α) (n : Nat) : List (AstNode α) :=
  match xs with
  | [] => []
  | x :: rest => AstNode.mk x (.int n) :: freshNodes rest (n + 1)

/-- Running `createMany` from any state allocates consecutive identities
starting at the current counter and leaves the counter advanced by the
number of nodes. -/
theorem createMany_run (xs : List α) (s : SessionState) :
    (createMany xs).run s
      = (.ok (freshNodes xs s.next_id), ⟨s.next_id + xs.length, s.locations⟩) := by
  induction xs generalizing s with
  | nil => simp [createMany, PyM.run, pure, instMonadPyM, freshNodes]
  | cons x rest ih =>
    have h := ih ⟨s.next_id + 1, s.locations⟩
    simp [createMany, PyM.run, bind, pure, instMonadPyM, AstNode.create,
      AstNode.get_id, freshNodes] at h ⊢
    rw [h]
    simp [Nat.add_comm, Nat.add_assoc, Nat.add_left_comm]

/-- The identities of the freshly allocated nodes are the integer range
starting at the initial counter. -/
theorem freshNodes_ids (xs : List α) (n : Nat) :
    (freshNodes xs n).map AstNode._id
      = List.map (fun m => JVal.int (Int.ofNat m)) (List.range' n xs.length) := by
  induction xs generalizing n with
  | nil => simp [freshNodes]
  | cons x rest ih => simp [freshNodes, List.range'_succ, ih]

/-- C7 counterexample: nothing separates the two identity modes.  With the
counter at zero, the first `AstNode.create` allocates the fresh identity 0,
which equals the identity of a node built with `AstNode.create_with_id`
from an input id 0, contradicting the claim that no fresh identity equals a
carried-over identity. -/
theorem c7_fresh_id_collides_with_carried :
    (AstNode.create "x").run s0 = (.ok ⟨"x", .int 0⟩, ⟨1, []⟩)
    ∧ (AstNode.create_with_id "y" (.int 0))._id = JVal.int 0
    ∧ (AstNode.create_with_id "y" (.int 0))._id
        = ((AstNode.mk "x" (.int 0) : AstNode String))._id :=
  ⟨rfl, rfl, rfl⟩

/-- C7 (amended): within one session the fresh-counter mode alone is
collision-free — successive `AstNode.create` calls hand out the consecutive
integer identities starting at the current counter, which are pairwise
distinct, and the counter advances accordingly; nodes are immutable records
whose identity is fixed at creation.  No disjointness with carried-over
identities holds (see the counterexample). -/
theorem c7_fresh_ids_pairwise_distinct (xs : List α) (s : SessionState) :
    (((createMany xs).run s).1.map (List.map AstNode._id))
      = .ok (List.map (fun m => JVal.int (Int.ofNat m))
          (List.range' s.next_id xs.length))
    ∧ (List.map (fun m => JVal.int (Int.ofNat m))
        (List.range' s.next_id xs.length)).Nodup
    ∧ ((createMany xs).run s).2 = ⟨s.next_id + xs.length, s.locations⟩ := by
  refine ⟨?_, ?_, ?_⟩
  · rw [createMany_run]
    simp [Except.map, freshNodes_ids]
  · refine List.Nodup.map ?_ (List.nodup_range' s.next_id xs.length)
    intro a b h
    simpa using h
  · rw [createMany_run]

/-- C8 counterexample: a location-map entry carrying the required `file`
and `pos` fields but no `includingLoc` key makes the bulk load fail — with
a `KeyError` naming the field and the id — although the claim (and the wire
contract) says `includingLoc` may be absent. -/
theorem c8_absent_includingloc_fails :
    (translate_location_map_json (.obj [("5", .obj
        [("file", .str "a.fpp"), ("pos", .str "1:1")])])).run s0
      = (.error (.keyError
          "Location map for ID 5 is missing required field includingLoc"), s0) :=
  rfl

/-- C8 (amended): for an entry whose string key parses as an integer id,
the bulk load succeeds when the three descriptor fields `file` (a string),
`pos` and `includingLoc` are all present — a null `includingLoc` value is
fine, but the key itself is required even though the wire contract allows
its absence — and only when all three keys are present: a successful load
implies all three were there.  Whenever one of the three keys is absent the
load fails with a `KeyError` naming both the missing field and the entry
id: a missing `file` is reported first; a missing `pos` next, given a
string `file`; a missing `includingLoc` last, given `file` and `pos`. -/
theorem c8_load_requires_all_three_fields
    (k : String) (n : Int) (s : SessionState) (hk : pyInt k = .ok n) :
    (∀ (fields : List (String × JVal)) (fileS : String) (posJ incJ : JVal),
      jLookup fields "file" = some (.str fileS) →
      jLookup fields "pos" = some posJ →
      jLookup fields "includingLoc" = some incJ →
      (translate_location_map_json (.obj [(k, .obj fields)])).run s
        = (.ok (listPut s.locations n ⟨fileS, posJ, incJ⟩),
           ⟨s.next_id, listPut s.locations n ⟨fileS, posJ, incJ⟩⟩))
    ∧ (∀ (fields : List (String × JVal)),
      jLookup fields "file" = none →
      (translate_location_map_json (.obj [(k, .obj fields)])).run s
        = (.error (.keyError ("Location map for ID " ++ k
            ++ " is missing required field file")), s))
    ∧ (∀ (fields : List (String × JVal)) (fileS : String),
      jLookup fields "file" = some (.str fileS) →
      jLookup fields "pos" = none →
      (translate_location_map_json (.obj [(k, .obj fields)])).run s
        = (.error (.keyError ("Location map for ID " ++ k
            ++ " is missing required field pos")), s))
    ∧ (∀ (fields : List (String × JVal)) (fileS : String) (posJ : JVal),
      jLookup fields "file" = some (.str fileS) →
      jLookup fields "pos" = some posJ →
      jLookup fields "includingLoc" = none →
      (translate_location_map_json (.obj [(k, .obj fields)])).run s
        = (.error (.keyError ("Location map for ID " ++ k
            ++ " is missing required field includingLoc")), s))
    ∧ (∀ (fields : List (String × JVal)) (r : List (Int × Location)),
      ((translate_location_map_json (.obj [(k, .obj fields)])).run s).1 = .ok r →
      (jLookup fields "file").isSome ∧ (jLookup fields "pos").isSome
        ∧ (jLookup fields "includingLoc").isSome) := by
  refine ⟨?_, ?_, ?_, ?_, ?_⟩
  · intro fields fileS posJ incJ hf hp hi
    simp [translate_location_map_json, load_location_entry,
      load_location_entry_body, Locations.put, Locations.get_map, PyM.run,
      PyM.ofExcept, TrM.toPyM, jIndexKey, jItems, TrM.ofExcept, pyPath,
      bind, pure, instMonadPyM, hk, hf, hp, hi]
  · intro fields hf
    simp [translate_location_map_json, load_location_entry,
      load_location_entry_body, Locations.put, Locations.get_map, PyM.run,
      PyM.ofExcept, TrM.toPyM, jIndexKey, jItems, TrM.ofExcept, pyPath,
      bind, pure, instMonadPyM, hk, hf, String.append_assoc]
  · intro fields fileS hf hp
    simp [translate_location_map_json, load_location_entry,
      load_location_entry_body, Locations.put, Locations.get_map, PyM.run,
      PyM.ofExcept, TrM.toPyM, jIndexKey, jItems, TrM.ofExcept, pyPath,
      bind, pure, instMonadPyM, hk, hf, hp, String.append_assoc]
  · intro fields fileS posJ hf hp hi
    simp [translate_location_map_json, load_location_entry,
      load_location_entry_body, Locations.put, Locations.get_map, PyM.run,
      PyM.ofExcept, TrM.toPyM, jIndexKey, jItems, TrM.ofExcept, pyPath,
      bind, pure, instMonadPyM, hk, hf, hp, hi, String.append_assoc]
  · intro fields r h
    rcases hfile : jLookup fields "file" with _ | fv
    · simp [translate_location_map_json, load_location_entry,
        load_location_entry_body, Locations.put, Locations.get_map, PyM.run,
        PyM.ofExcept, TrM.toPyM, jIndexKey, jItems, TrM.ofExcept, pyPath,
        bind, pure, instMonadPyM, hk, hfile] at h
    · cases fv with
      | str fs =>
        rcases hpos : jLookup fields "pos" with _ | pv
        · simp [translate_location_map_json, load_location_entry,
            load_location_entry_body, Locations.put, Locations.get_map,
            PyM.run, PyM.ofExcept, TrM.toPyM, jIndexKey, jItems, TrM.ofExcept,
            pyPath, bind, pure, instMonadPyM, hk, hfile, hpos] at h
        · rcases hincl : jLookup fields "includingLoc" with _ | iv
          · simp [translate_location_map_json, load_location_entry,
              load_location_entry_body, Locations.put, Locations.get_map,
              PyM.run, PyM.ofExcept, TrM.toPyM, jIndexKey, jItems,
              TrM.ofExcept, pyPath, bind, pure, instMonadPyM, hk, hfile,
              hpos, hincl] at h
          · simp
      | null =>
        simp [translate_location_map_json, load_location_entry,
          load_location_entry_body, Locations.put, Locations.get_map, PyM.run,
          PyM.ofExcept, TrM.toPyM, jIndexKey, jItems, TrM.ofExcept, pyPath,
          bind, pure, instMonadPyM, hk, hfile] at h
      | bool b =>
        simp [translate_location_map_json, load_location_entry,
          load_location_entry_body, Locations.put, Locations.get_map, PyM.run,
          PyM.ofExcept, TrM.toPyM, jIndexKey, jItems, TrM.ofExcept, pyPath,
          bind, pure, instMonadPyM, hk, hfile] at h
      | int m =>
        simp [translate_location_map_json, load_location_entry,
          load_location_entry_body, Locations.put, Locations.get_map, PyM.run,
          PyM.ofExcept, TrM.toPyM, jIndexKey, jItems, TrM.ofExcept, pyPath,
          bind, pure, instMonadPyM, hk, hfile] at h
      | arr xs =>
        simp [translate_location_map_json, load_location_entry,
          load_location_entry_body, Locations.put, Locations.get_map, PyM.run,
          PyM.ofExcept, TrM.toPyM, jIndexKey, jItems, TrM.ofExcept, pyPath,
          bind, pure, instMonadPyM, hk, hfile] at h
      | obj fs =>
        simp [translate_location_map_json, load_location_entry,
          load_location_entry_body, Locations.put, Locations.get_map, PyM.run,
          PyM.ofExcept, TrM.toPyM, jIndexKey, jItems, TrM.ofExcept, pyPath,
          bind, pure, instMonadPyM, hk, hfile] at h

/-- C8 witness: the amended load theorem at the concrete entry id 5 with
descriptor `file = a.fpp`, `pos = 1:1`: the full descriptor loads and
registers the entry, and dropping `file`, `pos` or `includingLoc` each
fails naming that field and the id; the successful run also certifies the
only-if direction at the full descriptor. -/
theorem c8_load_requires_all_three_fields_witness :
    pyInt "5" = .ok 5
    ∧ (translate_location_map_json (.obj [("5", .obj
        [("file", .str "a.fpp"), ("pos", .str "1:1"),
         ("includingLoc", .null)])])).run s0
      = (.ok [(5, ⟨"a.fpp", .str "1:1", .null⟩)],
         ⟨0, [(5, ⟨"a.fpp", .str "1:1", .null⟩)]⟩)
    ∧ (translate_location_map_json (.obj [("5", .obj
        [("pos", .str "1:1")])])).run s0
      = (.error (.keyError
          "Location map for ID 5 is missing required field file"), s0)
    ∧ (translate_location_map_json (.obj [("5", .obj
        [("file", .str "a.fpp")])])).run s0
      = (.error (.keyError
          "Location map for ID 5 is missing required field pos"), s0)
    ∧ (translate_location_map_json (.obj [("5", .obj
        [("file", .str "a.fpp"), ("pos", .str "1:1")])])).run s0
      = (.error (.keyError
          "Location map for ID 5 is missing required field includingLoc"), s0)
    ∧ ((jLookup [("file", .str "a.fpp"), ("pos", .str "1:1"),
          ("includingLoc", .null)] "file").isSome
       ∧ (jLookup [("file", .str "a.fpp"), ("pos", .str "1:1"),
          ("includingLoc", .null)] "pos").isSome
       ∧ (jLookup [("file", .str "a.fpp"), ("pos", .str "1:1"),
          ("includingLoc", .null)] "includingLoc").isSome) :=
  ⟨rfl,
   (c8_load_requires_all_three_fields "5" 5 s0 rfl).1
      [("file", .str "a.fpp"), ("pos", .str "1:1"), ("includingLoc", .null)]
      "a.fpp" (.str "1:1") .null rfl rfl rfl,
   (c8_load_requires_all_three_fields "5" 5 s0 rfl).2.1
      [("pos", .str "1:1")] rfl,
   (c8_load_requires_all_three_fields "5" 5 s0 rfl).2.2.1
      [("file", .str "a.fpp")] "a.fpp" rfl rfl,
   (c8_load_requires_all_three_fields "5" 5 s0 rfl).2.2.2.1
      [("file", .str "a.fpp"), ("pos", .str "1:1")] "a.fpp" (.str "1:1")
      rfl rfl rfl,
   (c8_load_requires_all_three_fields "5" 5 s0 rfl).2.2.2.2
      [("file", .str "a.fpp"), ("pos", .str "1:1"), ("includingLoc", .null)]
      [(5, ⟨"a.fpp", .str "1:1", .null⟩)] rfl⟩

/-- C10 counterexample: `translate_limit_kind` is not total on arbitrary
dictionaries — unlike the other three kind translators it first unwraps the
tagged-node envelope, so on a plain dictionary it raises `KeyError`
("AstNode") instead of returning a default. -/
theorem c10_limit_kind_raises_on_plain_dict :
    (translate_limit_kind (.obj [])).run s0
      = (.error (.keyError "AstNode"), s0) :=
  rfl

/-- C10 (amended): `translate_queue_full`, `translate_spec_command_kind` and
`translate_severity` are total on every dictionary and map unrecognized
inputs to the defaults `HOOK`, `GUARDED` and `WARNING_LOW`;
`translate_limit_kind` requires the tagged-node envelope and, given one
whose payload mentions neither `Yellow` nor `Orange`, returns a node
carrying the default `RED` under the carried-over id. -/
theorem c10_kind_translator_defaults :
    (∀ d : JVal, jHasKey d "Assert" = false → jHasKey d "Block" = false →
      jHasKey d "Drop" = false → translate_queue_full d = .hook)
    ∧ (∀ d : JVal, jHasKey d "Async" = false → jHasKey d "Sync" = false →
      translate_spec_command_kind d = .guarded)
    ∧ (∀ d : JVal, jHasKey d "ActivityHigh" = false →
      jHasKey d "ActivityLow" = false → jHasKey d "Command" = false →
      jHasKey d "Diagnostic" = false → jHasKey d "Fatal" = false →
      jHasKey d "WarningHigh" = false → translate_severity d = .warningLow)
    ∧ (∀ (id data : JVal) (s : SessionState), jHasKey data "Yellow" = false →
      jHasKey data "Orange" = false →
      (translate_limit_kind (mkAstNodeJ id data)).run s = (.ok ⟨.red, id⟩, s)) := by
  refine ⟨?_, ?_, ?_, ?_⟩
  · intro d h1 h2 h3; simp [translate_queue_full, h1, h2, h3]
  · intro d h1 h2; simp [translate_spec_command_kind, h1, h2]
  · intro d h1 h2 h3 h4 h5 h6
    simp [translate_severity, h1, h2, h3, h4, h5, h6]
  · intro id data s h1 h2
    simp [translate_limit_kind, mkAstNodeJ, read_ast_node, jIndexKey, jLookup,
      TrM.run, TrM.bind, TrM.raise, TrM.ofExcept, bind, pure, h1, h2,
      AstNode.create_with_id]

/-- C10 witness: the defaults theorem applied to the empty dictionary and to
a wrapped node with empty payload and id 3. -/
theorem c10_kind_translator_defaults_witness :
    jHasKey (.obj []) "Assert" = false
    ∧ translate_queue_full (.obj []) = .hook
    ∧ translate_spec_command_kind (.obj []) = .guarded
    ∧ translate_severity (.obj []) = .warningLow
    ∧ (translate_limit_kind (mkAstNodeJ (.int 3) (.obj []))).run s0
        = (.ok ⟨.red, .int 3⟩, s0) :=
  ⟨rfl,
   c10_kind_translator_defaults.1 (.obj []) rfl rfl rfl,
   c10_kind_translator_defaults.2.1 (.obj []) rfl rfl,
   c10_kind_translator_defaults.2.2.1 (.obj []) rfl rfl rfl rfl rfl rfl,
   c10_kind_translator_defaults.2.2.2 (.int 3) (.obj []) s0 rfl rfl⟩

end FppModel
